import Mathlib

/-!
# gateway-operator: watch predicates, map functions and the ClusterRole generator

A shallow embedding of

* `internal/utils/kubernetes/resources/zz_generated_clusterrole_helpers.go`
  (`GenerateNewClusterRoleForControlPlane`), together with the part of the
  library `github.com/Masterminds/semver` (v1 API) that the function calls;
* `controllers/gateway/controller_watch.go` (watch predicates, map functions and
  the defaults of a GatewayConfiguration);
* `internal/utils/kubernetes/resources/resourcerequirements.go`
  (`ResourceRequirementsEqual`);
* `controllers/status_conditions.go` (`markAsProvisioned`);

next to a model of the promotion of the blue/green rollout engine that follows
the specification.

Go values are modelled as follows: `*string` is `Option String`, a function
returning `(T, error)` returns `Except GoError T`, a `map[string]struct{}` is the
list of its keys, and a call to the API server is a field of `Client` that holds
what the call returns in the store state under consideration.
-/

namespace GatewayOperator

/-! ## Go runtime: errors and strings -/

/-- Go `error` values: a package-level sentinel made by `errors.New`, a message
formatted by `fmt.Errorf` without `%w`, or an error wrapping another one. -/
inductive GoError where
  | sentinel (text : String)
  | errorf (msg : String)
  | wrap (msg : String) (inner : GoError)
  deriving DecidableEq, Repr

deriving instance DecidableEq for Except

/-- Go `errors.Is(err, target)`: `err` or an error in its chain is `target`. -/
def errorsIs : GoError → GoError → Bool
  | .wrap msg inner, target =>
      decide (GoError.wrap msg inner = target) || errorsIs inner target
  | err, target => decide (err = target)

/-- Go `strings.Split(s, sep)` for a one-character separator, on the characters
of `s`: the pieces between the separators, at least one piece. -/
def splitChars (sep : Char) : List Char → List (List Char)
  | [] => [[]]
  | c :: cs =>
      if c = sep then [] :: splitChars sep cs
      else
        match splitChars sep cs with
        | [] => [[c]]
        | p :: ps => (c :: p) :: ps

/-- Go `strings.Split(s, ":")`. -/
def stringsSplitColon (s : String) : List String :=
  (splitChars ':' s.data).map String.mk

/-! ## github.com/Masterminds/semver (v1): versions -/

/-- The library's `Version`: three numeric segments (`int64` in Go), the
pre-release and build-metadata texts, and the text it was parsed from. -/
structure Version where
  major : Nat
  minor : Nat
  patch : Nat
  pre : String
  metadata : String
  original : String
  deriving DecidableEq, Repr

/-- The library's sentinel `ErrInvalidSemVer`. -/
def ErrInvalidSemVer : GoError := .sentinel "Invalid Semantic Version"

/-- Value of a run of decimal digits. -/
def digitsValue (ds : List Char) : Nat :=
  ds.foldl (fun n c => 10 * n + (c.toNat - '0'.toNat)) 0

/-- Go `strconv.ParseInt(s, 10, 64)` on a non-empty run of digits, as called by
`NewVersion`: the value, or the range error wrapped by `NewVersion` into
`"Error parsing version segment: ..."`. -/
def parseSegment (ds : List Char) : Except GoError Nat :=
  if digitsValue ds < 2 ^ 63 then .ok (digitsValue ds)
  else .error (.errorf ("Error parsing version segment: strconv.ParseInt: parsing \""
    ++ String.mk ds ++ "\": value out of range"))

/-- Character class `[0-9A-Za-z\-]` of the version regular expression. -/
def isIdentChar (c : Char) : Bool := c.isAlphanum || c = '-'

/-- The sub-expression `[0-9A-Za-z\-]+(\.[0-9A-Za-z\-]+)*` at the head of `s`:
the longest run of identifier characters and dots, provided every dot-separated
piece of it is non-empty; the rest of `s` comes with it. -/
def takeIdents (s : List Char) : Option (List Char × List Char) :=
  let run := s.takeWhile (fun c => isIdentChar c || c = '.')
  let rest := s.dropWhile (fun c => isIdentChar c || c = '.')
  if (splitChars '.' run).all (fun p => !p.isEmpty) then some (run, rest) else none

/-- An optional group `(\.[0-9]+)?` at the head of `s`: `none` when `s` starts
with a dot that no digit follows (the whole match then fails). -/
def takeDotted (s : List Char) : Option (Option (List Char) × List Char) :=
  match s with
  | '.' :: t =>
      let ds := t.takeWhile Char.isDigit
      if ds.isEmpty then none else some (some ds, t.dropWhile Char.isDigit)
  | _ => some (none, s)

/-- The optional build-metadata group `(\+(...))?` followed by the end of text. -/
def takeMetadata (s : List Char) : Option (List Char) :=
  match s with
  | [] => some []
  | '+' :: t =>
      match takeIdents t with
      | some (md, []) => some md
      | _ => none
  | _ => none

/-- The optional pre-release group `(-(...))?`, then the metadata group and the
end of text: the pre-release and the metadata. -/
def takePrerelease (s : List Char) : Option (List Char × List Char) :=
  match s with
  | '-' :: t =>
      match takeIdents t with
      | some (pre, rest) => (takeMetadata rest).map (fun md => (pre, md))
      | none => none
  | _ => (takeMetadata s).map (fun md => ([], md))

/-- The groups of a match of the library's anchored version regular expression
`^v?([0-9]+)(\.[0-9]+)?(\.[0-9]+)?(-(...))?(\+(...))?$`. -/
structure VersionMatch where
  major : List Char
  minor : Option (List Char)
  patch : Option (List Char)
  pre : List Char
  metadata : List Char
  deriving DecidableEq, Repr

/-- Match of the version regular expression against the whole text, `none` when
the text does not match. -/
def versionRegexMatch (s : List Char) : Option VersionMatch :=
  let s1 := match s with
    | 'v' :: t => t
    | _ => s
  let major := s1.takeWhile Char.isDigit
  if major.isEmpty then none
  else
    match takeDotted (s1.dropWhile Char.isDigit) with
    | none => none
    | some (none, rest) =>
        (takePrerelease rest).map (fun pm => ⟨major, none, none, pm.1, pm.2⟩)
    | some (some minor, rest) =>
        match takeDotted rest with
        | none => none
        | some (patch, rest2) =>
            (takePrerelease rest2).map (fun pm => ⟨major, some minor, patch, pm.1, pm.2⟩)

/-- An optional numeric segment: 0 when the group did not take part in the match. -/
def parseOptSegment : Option (List Char) → Except GoError Nat
  | none => .ok 0
  | some ds => parseSegment ds

/-- The library's `NewVersion(v)`: `ErrInvalidSemVer` when the text does not match
the regular expression, a segment error when a number does not fit `int64`. -/
def NewVersion (v : String) : Except GoError Version :=
  match versionRegexMatch v.data with
  | none => .error ErrInvalidSemVer
  | some m =>
      match parseSegment m.major with
      | .error e => .error e
      | .ok major =>
          match parseOptSegment m.minor with
          | .error e => .error e
          | .ok minor =>
              match parseOptSegment m.patch with
              | .error e => .error e
              | .ok patch =>
                  .ok ⟨major, minor, patch, String.mk m.pre, String.mk m.metadata, v⟩

/-! ## github.com/Masterminds/semver (v1): constraints -/

/-- Comparison operators used by the constraints of this program. -/
inductive ConstraintOp where
  | greaterThanEqual
  | lessThan
  deriving DecidableEq, Repr

/-- One parsed comparison of the library. The constraints of this program are
the literals `>=a.b` and `<a.b`: the library parses the operand to the version
`a.b.0`, with no pre-release and no wildcard segment, which the three numbers
here stand for. -/
structure constraint where
  function : ConstraintOp
  major : Nat
  minor : Nat
  patch : Nat
  deriving DecidableEq, Repr

/-- The library's `Version.Compare` against an operand `major.minor.patch`
without pre-release: the numeric segments decide, and on equal segments a
version with a pre-release is smaller. -/
def Version.CompareRelease (v : Version) (major minor patch : Nat) : Ordering :=
  if v.major ≠ major then (if v.major < major then .lt else .gt)
  else if v.minor ≠ minor then (if v.minor < minor then .lt else .gt)
  else if v.patch ≠ patch then (if v.patch < patch then .lt else .gt)
  else if v.pre = "" then .eq
  else .lt

/-- The library's `constraintGreaterThanEqual` and `constraintLessThan` for an
operand without pre-release: a version that has a pre-release satisfies
neither, otherwise `Compare` decides. -/
def constraint.check (c : constraint) (v : Version) : Bool :=
  if v.pre ≠ "" then false
  else
    match c.function with
    | .greaterThanEqual => v.CompareRelease c.major c.minor c.patch != .lt
    | .lessThan => v.CompareRelease c.major c.minor c.patch == .lt

/-- The library's `Constraints`: alternatives (`||`) of conjunctions (`,`). -/
structure Constraints where
  constraints : List (List constraint)
  deriving DecidableEq, Repr

/-- The library's `Constraints.Check`: some alternative has all its comparisons
satisfied. -/
def Constraints.Check (cs : Constraints) (v : Version) : Bool :=
  cs.constraints.any (fun o => o.all (fun c => c.check v))

/-- Result of `semver.NewConstraint(">=2.1,<2.2")` (the call does not fail). -/
def constraint_ge2_1_lt2_2 : Constraints :=
  ⟨[[⟨.greaterThanEqual, 2, 1, 0⟩, ⟨.lessThan, 2, 2, 0⟩]]⟩

/-- Result of `semver.NewConstraint(">=2.2,<2.3")` (the call does not fail). -/
def constraint_ge2_2_lt2_3 : Constraints :=
  ⟨[[⟨.greaterThanEqual, 2, 2, 0⟩, ⟨.lessThan, 2, 3, 0⟩]]⟩

/-- Result of `semver.NewConstraint(">=2.3,<2.4")` (the call does not fail). -/
def constraint_ge2_3_lt2_4 : Constraints :=
  ⟨[[⟨.greaterThanEqual, 2, 3, 0⟩, ⟨.lessThan, 2, 4, 0⟩]]⟩

/-- Result of `semver.NewConstraint(">=2.4,<2.6")` (the call does not fail). -/
def constraint_ge2_4_lt2_6 : Constraints :=
  ⟨[[⟨.greaterThanEqual, 2, 4, 0⟩, ⟨.lessThan, 2, 6, 0⟩]]⟩

/-- Result of `semver.NewConstraint(">=2.6")` (the call does not fail). -/
def constraint_ge2_6 : Constraints :=
  ⟨[[⟨.greaterThanEqual, 2, 6, 0⟩]]⟩

/-! ## internal/utils/kubernetes/resources: the ClusterRole generator -/

/-- What `GenerateNewClusterRoleForControlPlane` takes from other packages of the
operator: the constants `consts.DefaultControlPlaneTag` and
`versions.Latest`, and the five generated functions of package `clusterroles`,
each from a control-plane name to a ClusterRole (of type `ρ`). -/
structure ClusterRoleEnv (ρ : Type) where
  DefaultControlPlaneTag : String
  Latest : String
  GenerateNewClusterRoleForControlPlane_ge2_1_lt2_2 : String → ρ
  GenerateNewClusterRoleForControlPlane_ge2_2_lt2_3 : String → ρ
  GenerateNewClusterRoleForControlPlane_ge2_3_lt2_4 : String → ρ
  GenerateNewClusterRoleForControlPlane_ge2_4_lt2_6 : String → ρ
  GenerateNewClusterRoleForControlPlane_ge2_6 : String → ρ

/-- Lines 25-35 of `GenerateNewClusterRoleForControlPlane`: the version text that
is handed to `semver.NewVersion`. -/
def imageVersion {ρ : Type} (E : ClusterRoleEnv ρ) (image : Option String) : String :=
  match image with
  | none => E.DefaultControlPlaneTag
  | some img =>
      if img ≠ "" then
        let parts := stringsSplitColon img
        if parts.length ≠ 2 ∨ parts.getD 1 "" = "latest" then E.Latest
        else if parts.length = 2 then parts.getD 1 ""
        else E.DefaultControlPlaneTag
      else E.DefaultControlPlaneTag

/-- The error of the last line, `fmt.Errorf("version %s not supported", version)`. -/
def versionNotSupported (version : String) : GoError :=
  .errorf ("version " ++ version ++ " not supported")

/-- Lines 42-82 of `GenerateNewClusterRoleForControlPlane`: the chain of range
checks on the parsed version. -/
def checkRanges {ρ : Type} (E : ClusterRoleEnv ρ) (controlplaneName version : String)
    (semVersion : Version) : Except GoError ρ :=
  if constraint_ge2_1_lt2_2.Check semVersion then
    .ok (E.GenerateNewClusterRoleForControlPlane_ge2_1_lt2_2 controlplaneName)
  else if constraint_ge2_2_lt2_3.Check semVersion then
    .ok (E.GenerateNewClusterRoleForControlPlane_ge2_2_lt2_3 controlplaneName)
  else if constraint_ge2_3_lt2_4.Check semVersion then
    .ok (E.GenerateNewClusterRoleForControlPlane_ge2_3_lt2_4 controlplaneName)
  else if constraint_ge2_4_lt2_6.Check semVersion then
    .ok (E.GenerateNewClusterRoleForControlPlane_ge2_4_lt2_6 controlplaneName)
  else if constraint_ge2_6.Check semVersion then
    .ok (E.GenerateNewClusterRoleForControlPlane_ge2_6 controlplaneName)
  else .error (versionNotSupported version)

/-- The function `GenerateNewClusterRoleForControlPlane(controlplaneName, image)`:
the ClusterRole, or the error (the ClusterRole is then nil). -/
def GenerateNewClusterRoleForControlPlane {ρ : Type} (E : ClusterRoleEnv ρ)
    (controlplaneName : String) (image : Option String) : Except GoError ρ :=
  match NewVersion (imageVersion E image) with
  | .error err => .error err
  | .ok semVersion => checkRanges E controlplaneName (imageVersion E image) semVersion

/-- A ClusterRole known by the generated function that made it and the
control-plane name it was made for: the ClusterRole type used to evaluate the
generator on concrete images. -/
inductive TaggedRole where
  | ge2_1_lt2_2 (controlplaneName : String)
  | ge2_2_lt2_3 (controlplaneName : String)
  | ge2_3_lt2_4 (controlplaneName : String)
  | ge2_4_lt2_6 (controlplaneName : String)
  | ge2_6 (controlplaneName : String)
  deriving DecidableEq, Repr

/-- An environment over `TaggedRole` with the two version constants given. -/
def taggedEnv (defaultControlPlaneTag latest : String) : ClusterRoleEnv TaggedRole :=
  ⟨defaultControlPlaneTag, latest, .ge2_1_lt2_2, .ge2_2_lt2_3, .ge2_3_lt2_4,
    .ge2_4_lt2_6, .ge2_6⟩

/-! ## controllers/gateway: objects and the API client -/

/-- The type `types.NamespacedName`. -/
structure NamespacedName where
  Namespace : String
  Name : String
  deriving DecidableEq, Repr

/-- The type `reconcile.Request`. -/
structure Request where
  NamespacedName : NamespacedName
  deriving DecidableEq, Repr

/-- The type `gatewayv1.ParametersReference`. -/
structure ParametersReference where
  Group : String
  Kind : String
  Name : String
  Namespace : Option String
  deriving DecidableEq, Repr

/-- The type `gatewayv1.GatewayClassSpec` (fields read by the watch functions). -/
structure GatewayClassSpec where
  ControllerName : String
  ParametersRef : Option ParametersReference
  deriving DecidableEq, Repr

/-- The type `gatewayv1.GatewayClass`, a cluster-scoped object. -/
structure GatewayClass where
  Name : String
  Spec : GatewayClassSpec
  deriving DecidableEq, Repr

/-- The type `gatewayv1.GatewaySpec` (field read by the watch functions). -/
structure GatewaySpec where
  GatewayClassName : String
  deriving DecidableEq, Repr

/-- The type `gwtypes.Gateway`. -/
structure Gateway where
  Namespace : String
  Name : String
  Spec : GatewaySpec
  deriving DecidableEq, Repr

/-- The type `corev1.EnvVar` (name and literal value). -/
structure EnvVar where
  Name : String
  Value : String
  deriving DecidableEq, Repr

/-- The type `corev1.Container` (fields read by the reconciler). -/
structure Container where
  Name : String
  Image : String
  Env : List EnvVar
  deriving DecidableEq, Repr

/-- The type `corev1.PodSpec` (its containers). -/
structure PodSpec where
  Containers : List Container
  deriving DecidableEq, Repr

/-- The type `corev1.PodTemplateSpec` (its pod spec). -/
structure PodTemplateSpec where
  Spec : PodSpec
  deriving DecidableEq, Repr

/-- The deployment options of `operatorv1alpha1.ControlPlaneOptions`: the pod
template, a pointer. -/
structure ControlPlaneDeploymentOptions where
  PodTemplateSpec : Option PodTemplateSpec
  deriving DecidableEq, Repr

/-- The type `operatorv1alpha1.ControlPlaneOptions`: the deployment options and
the name of the DataPlane, a `*string`. -/
structure ControlPlaneOptions where
  Deployment : ControlPlaneDeploymentOptions
  DataPlane : Option String
  deriving DecidableEq, Repr

/-- The type `operatorv1alpha1.GatewayConfigDataPlaneOptions`, declared in the
API package: the value is known by its fields that are set, by name, each with
its value as text; `new(GatewayConfigDataPlaneOptions)` has no field set. -/
structure GatewayConfigDataPlaneOptions where
  SetFields : List (String × String)
  deriving DecidableEq, Repr

/-- The type `operatorv1alpha1.GatewayConfigurationSpec`: two pointers. -/
structure GatewayConfigurationSpec where
  DataPlaneOptions : Option GatewayConfigDataPlaneOptions
  ControlPlaneOptions : Option ControlPlaneOptions
  deriving DecidableEq, Repr

/-- The type `operatorv1alpha1.GatewayConfiguration`: object metadata and spec. -/
structure GatewayConfiguration where
  Namespace : String
  Name : String
  Spec : GatewayConfigurationSpec
  deriving DecidableEq, Repr

/-- A `client.Object` handed to a predicate or map function, by dynamic type:
one of the three kinds the functions assert, or an object of another type. -/
inductive Object where
  | Gateway (gateway : Gateway)
  | GatewayClass (gatewayClass : GatewayClass)
  | GatewayConfiguration (gatewayConfig : GatewayConfiguration)
  | Other (typeName : String)
  deriving DecidableEq, Repr

/-- The API client in one store state: what `r.Client.List` returns for a
`GatewayClassList` and for a `GatewayList`. -/
structure Client where
  ListGatewayClasses : Except GoError (List GatewayClass)
  ListGateways : Except GoError (List Gateway)

/-- The receiver `r *Reconciler` with what the watch functions read from other
packages of the operator: the method `verifyGatewayClassSupport` (its first
result is discarded by the caller), `vars.ControllerName()`,
`operatorerrors.ErrUnsupportedGateway` and
`operatorv1alpha1.SchemeGroupVersion.Group`. -/
structure Reconciler where
  Client : Client
  verifyGatewayClassSupport : Gateway → Except GoError Unit
  ControllerName : String
  ErrUnsupportedGateway : GoError
  SchemeGroupVersionGroup : String

/-! ## controllers/gateway: watch predicates -/

/-- The predicate `(r *Reconciler) gatewayHasMatchingGatewayClass(obj)`. -/
def gatewayHasMatchingGatewayClass (r : Reconciler) (obj : Object) : Bool :=
  match obj with
  | .Gateway gateway =>
      match r.verifyGatewayClassSupport gateway with
      | .error err => !errorsIs err r.ErrUnsupportedGateway
      | .ok _ => true
  | _ => false

/-- The predicate `(r *Reconciler) gatewayClassMatchesController(obj)`. -/
def gatewayClassMatchesController (r : Reconciler) (obj : Object) : Bool :=
  match obj with
  | .GatewayClass gatewayClass => decide (gatewayClass.Spec.ControllerName = r.ControllerName)
  | _ => false

/-- The loop of `gatewayConfigurationMatchesController` over the listed classes:
`true` at the first class of this controller, `false` when there is none. -/
def anyClassOfController (controllerName : String) : List GatewayClass → Bool
  | [] => false
  | gatewayClass :: rest =>
      if gatewayClass.Spec.ControllerName = controllerName then true
      else anyClassOfController controllerName rest

/-- The predicate `(r *Reconciler) gatewayConfigurationMatchesController(obj)`;
the object is only read for the log line. -/
def gatewayConfigurationMatchesController (r : Reconciler) (_obj : Object) : Bool :=
  match r.Client.ListGatewayClasses with
  | .error _ => true
  | .ok items => anyClassOfController r.ControllerName items

/-! ## controllers/gateway: watch map functions -/

/-- The request appended for a Gateway: its namespace and name. -/
def requestFor (gateway : Gateway) : Request :=
  ⟨⟨gateway.Namespace, gateway.Name⟩⟩

/-- The map function `(r *Reconciler) listGatewaysForGatewayClass(ctx, obj)`;
`recs` starts nil (the empty list) and is what every `return` returns. -/
def listGatewaysForGatewayClass (r : Reconciler) (obj : Object) : List Request :=
  match obj with
  | .GatewayClass gatewayClass =>
      match r.Client.ListGateways with
      | .error _ => []
      | .ok items =>
          items.foldl
            (fun recs gateway =>
              if gateway.Spec.GatewayClassName = gatewayClass.Name then
                recs ++ [requestFor gateway]
              else recs)
            []
  | _ => []

/-- The condition under which `listGatewaysForGatewayConfig` puts a class into
`matchingGatewayClasses`. -/
def parametersRefMatches (group : String) (gatewayConfig : GatewayConfiguration)
    (gatewayClass : GatewayClass) : Bool :=
  match gatewayClass.Spec.ParametersRef with
  | none => false
  | some ref =>
      decide (ref.Group = group) && decide (ref.Kind = "GatewayConfiguration") &&
        decide (ref.Name = gatewayConfig.Name)

/-- The map function `(r *Reconciler) listGatewaysForGatewayConfig(ctx, obj)`;
`matchingGatewayClasses` is the list of the keys put into the map. -/
def listGatewaysForGatewayConfig (r : Reconciler) (obj : Object) : List Request :=
  match obj with
  | .GatewayConfiguration gatewayConfig =>
      match r.Client.ListGatewayClasses with
      | .error _ => []
      | .ok classItems =>
          let matchingGatewayClasses : List String :=
            classItems.foldl
              (fun m gatewayClass =>
                if parametersRefMatches r.SchemeGroupVersionGroup gatewayConfig gatewayClass
                then gatewayClass.Name :: m
                else m)
              []
          match r.Client.ListGateways with
          | .error _ => []
          | .ok items =>
              items.foldl
                (fun recs gateway =>
                  if gateway.Spec.GatewayClassName ∈ matchingGatewayClasses then
                    recs ++ [requestFor gateway]
                  else recs)
                []
  | _ => []

/-! ## controllers/gateway: defaults of a GatewayConfiguration -/

/-- The method `(r *Reconciler) setDataPlaneGatewayConfigDefaults(gatewayConfig)`:
the configuration after the call. -/
def setDataPlaneGatewayConfigDefaults (gatewayConfig : GatewayConfiguration) :
    GatewayConfiguration :=
  match gatewayConfig.Spec.DataPlaneOptions with
  | none =>
      ⟨gatewayConfig.Namespace, gatewayConfig.Name,
        ⟨some ⟨[]⟩, gatewayConfig.Spec.ControlPlaneOptions⟩⟩
  | some _ => gatewayConfig

/-- The type `controlplane.DefaultsArgs`. -/
structure DefaultsArgs where
  Namespace : String
  DataPlaneIngressServiceName : String
  DataPlaneAdminServiceName : String
  ManagedByGateway : Bool
  ControlPlaneName : String
  deriving DecidableEq, Repr

/-- What `setControlPlaneGatewayConfigDefaults` takes from other packages and
files of the operator: `consts.DefaultControlPlaneImage`,
`resources.GenerateControlPlaneContainer`, `controlplane.SetDefaults` (the options
it leaves behind; its boolean result is discarded by the caller) and
`setControlPlaneOptionsDefaults` (the options it leaves behind). -/
structure DefaultsEnv where
  DefaultControlPlaneImage : String
  GenerateControlPlaneContainer : String → Container
  SetDefaults : ControlPlaneOptions → List String → DefaultsArgs → ControlPlaneOptions
  setControlPlaneOptionsDefaults : ControlPlaneOptions → ControlPlaneOptions

/-- Modelled from the spec: the constant `consts.ControlPlaneControllerContainerName`,
which is declared in package `consts`; the spec names the container "controller". -/
def ControlPlaneControllerContainerName : String := "controller"

/-- Modelled from the spec: the helper `k8sutils.GetPodContainerByName`, which is
declared in package `k8sutils`; the container of the pod spec that has the given
name (the first one), nil when no container has it. -/
def GetPodContainerByName (podSpec : PodSpec) (name : String) : Option Container :=
  podSpec.Containers.find? (fun c => decide (c.Name = name))

/-- The arguments of the call `controlplane.SetDefaults(spec, dontOverride, args)`;
`dontOverride` is the list of the keys put into the map. -/
structure SetDefaultsCall where
  spec : ControlPlaneOptions
  dontOverride : List String
  args : DefaultsArgs
  deriving DecidableEq, Repr

/-- Lines 199-235 of `setControlPlaneGatewayConfigDefaults`: the state of the
control-plane options and the `dontOverride` map when `controlplane.SetDefaults`
is called, with the arguments of that call. -/
def setDefaultsCall (E : DefaultsEnv) (gateway : Gateway)
    (gatewayConfig : GatewayConfiguration)
    (dataplaneName dataplaneIngressServiceName dataplaneAdminServiceName
      controlPlaneName : String) : SetDefaultsCall :=
  let options : ControlPlaneOptions :=
    match gatewayConfig.Spec.ControlPlaneOptions with
    | none => ⟨⟨none⟩, none⟩
    | some o => o
  let dataPlane : Option String :=
    if options.DataPlane = none ∨ options.DataPlane = some "" then some dataplaneName
    else options.DataPlane
  let controlPlanePodTemplateSpec : PodTemplateSpec :=
    match options.Deployment.PodTemplateSpec with
    | none => ⟨⟨[]⟩⟩
    | some t => t
  let args : DefaultsArgs :=
    ⟨gateway.Namespace, dataplaneIngressServiceName, dataplaneAdminServiceName, true,
      controlPlaneName⟩
  match GetPodContainerByName controlPlanePodTemplateSpec.Spec
      ControlPlaneControllerContainerName with
  | none =>
      let container := E.GenerateControlPlaneContainer E.DefaultControlPlaneImage
      ⟨⟨⟨some ⟨⟨controlPlanePodTemplateSpec.Spec.Containers ++ [container]⟩⟩⟩, dataPlane⟩,
        container.Env.foldl (fun m env => env.Name :: m) [], args⟩
  | some container =>
      ⟨⟨⟨some controlPlanePodTemplateSpec⟩, dataPlane⟩,
        container.Env.foldl (fun m env => env.Name :: m) [], args⟩

/-- The method `(r *Reconciler) setControlPlaneGatewayConfigDefaults(gateway,
gatewayConfig, dataplaneName, dataplaneIngressServiceName,
dataplaneAdminServiceName, controlPlaneName)`: the configuration after the call. -/
def setControlPlaneGatewayConfigDefaults (E : DefaultsEnv) (gateway : Gateway)
    (gatewayConfig : GatewayConfiguration)
    (dataplaneName dataplaneIngressServiceName dataplaneAdminServiceName
      controlPlaneName : String) : GatewayConfiguration :=
  let call := setDefaultsCall E gateway gatewayConfig dataplaneName
    dataplaneIngressServiceName dataplaneAdminServiceName controlPlaneName
  ⟨gatewayConfig.Namespace, gatewayConfig.Name,
    ⟨gatewayConfig.Spec.DataPlaneOptions,
      some (E.setControlPlaneOptionsDefaults
        (E.SetDefaults call.spec call.dontOverride call.args))⟩⟩

/-- The containers of the control-plane pod template that the user supplied,
none when the options or the pod template are nil. -/
def suppliedContainers (gatewayConfig : GatewayConfiguration) : List Container :=
  match gatewayConfig.Spec.ControlPlaneOptions with
  | none => []
  | some o =>
      match o.Deployment.PodTemplateSpec with
      | none => []
      | some t => t.Spec.Containers

/-- The DataPlane name that the user supplied, nil when the options are nil. -/
def suppliedDataPlane (gatewayConfig : GatewayConfiguration) : Option String :=
  match gatewayConfig.Spec.ControlPlaneOptions with
  | none => none
  | some o => o.DataPlane

/-- The "controller" container: the user's container when the supplied pod
template has one, otherwise the one generated from the default image. -/
def controllerContainer (E : DefaultsEnv) (gatewayConfig : GatewayConfiguration) :
    Container :=
  match GetPodContainerByName ⟨suppliedContainers gatewayConfig⟩
      ControlPlaneControllerContainerName with
  | some c => c
  | none => E.GenerateControlPlaneContainer E.DefaultControlPlaneImage

/-- The environment of the container named "controller" in the pod template of
the options, empty when there is no such container. -/
def controllerEnv (options : ControlPlaneOptions) : List EnvVar :=
  match options.Deployment.PodTemplateSpec with
  | none => []
  | some t =>
      match GetPodContainerByName t.Spec ControlPlaneControllerContainerName with
      | none => []
      | some c => c.Env

/-- The value an environment carries for a name: that of the first variable
with the name, as the helper `getEnvValueByName` of the tests reads it. -/
def EnvValueByName (env : List EnvVar) (name : String) : Option String :=
  (env.find? (fun e => decide (e.Name = name))).map (fun e => e.Value)

/-- Modelled from the spec: the contract of the defaulting step
`controlplane.SetDefaults`, declared in package `controlplane`: built-in defaults
"are injected only for variable names not already present", so the value the
controller container carries for a name of the do-not-override set is left as it
was. -/
def HonoursDontOverride
    (setDefaults : ControlPlaneOptions → List String → DefaultsArgs → ControlPlaneOptions) :
    Prop :=
  ∀ spec dontOverride args name, name ∈ dontOverride →
    EnvValueByName (controllerEnv (setDefaults spec dontOverride args)) name
      = EnvValueByName (controllerEnv spec) name

/-- A later step on the options leaves the values of the controller container's
variables as they were. -/
def KeepsControllerEnv (step : ControlPlaneOptions → ControlPlaneOptions) : Prop :=
  ∀ spec name,
    EnvValueByName (controllerEnv (step spec)) name = EnvValueByName (controllerEnv spec) name

/-- A step on the options that rewrites the environment of every container
named "controller" and leaves everything else as it was. -/
def onControllerEnv (f : List EnvVar → List EnvVar) (options : ControlPlaneOptions) :
    ControlPlaneOptions :=
  ⟨⟨options.Deployment.PodTemplateSpec.map (fun t =>
      ⟨⟨t.Spec.Containers.map (fun c =>
        if c.Name = ControlPlaneControllerContainerName then ⟨c.Name, c.Image, f c.Env⟩
        else c)⟩⟩)⟩,
    options.DataPlane⟩

/-- Modelled from the spec: a defaulting step as the spec describes
`controlplane.SetDefaults`, declared in package `controlplane`: each built-in
default is appended to the controller container unless its name is in the
do-not-override set. -/
def injectDefaults (defaults : DefaultsArgs → List EnvVar) (spec : ControlPlaneOptions)
    (dontOverride : List String) (args : DefaultsArgs) : ControlPlaneOptions :=
  onControllerEnv
    (fun env => env ++ (defaults args).filter (fun d => decide (d.Name ∉ dontOverride)))
    spec

/-- Built-in defaults used to evaluate the defaulting step: the publish service
of the data plane and a variable `TEST_ENV`. -/
def sampleDefaults (args : DefaultsArgs) : List EnvVar :=
  [⟨"CONTROLLER_PUBLISH_SERVICE", args.Namespace ++ "/" ++ args.DataPlaneIngressServiceName⟩,
   ⟨"TEST_ENV", "default"⟩]

/-- An environment of `setControlPlaneGatewayConfigDefaults` for evaluation: the
generated container has no variable, the defaulting step is `injectDefaults`
and the last step changes nothing. -/
def sampleDefaultsEnv : DefaultsEnv :=
  ⟨"kong/kubernetes-ingress-controller:2.6.0",
    fun image => ⟨ControlPlaneControllerContainerName, image, []⟩,
    injectDefaults sampleDefaults, fun o => o⟩

/-! ## internal/utils/kubernetes/resources: resource requirements -/

/-- The library type `resource.Quantity` (k8s.io/apimachinery): the number
`value * 10 ^ scale` and the format it is written in. `resource.MustParse("1")`
is `(1, 0, DecimalSI)` and `resource.MustParse("1000m")` is `(1000, -3, DecimalSI)`. -/
structure Quantity where
  value : Int
  scale : Int
  Format : String
  deriving DecidableEq, Repr

/-- The unscaled value of a quantity at a scale not above its own. -/
def Quantity.scaledTo (q : Quantity) (s : Int) : Int :=
  q.value * 10 ^ (q.scale - s).toNat

/-- The library's `Quantity.Cmp`: the two numbers compared at their common
(smaller) scale. -/
def Quantity.Cmp (q y : Quantity) : Ordering :=
  compare (q.scaledTo (min q.scale y.scale)) (y.scaledTo (min q.scale y.scale))

/-- The library's `Quantity.Equal`: `q.Cmp(v) == 0`. -/
def Quantity.Equal (q v : Quantity) : Bool :=
  q.Cmp v == .eq

/-- The number a quantity stands for. -/
def Quantity.number (q : Quantity) : ℚ :=
  (q.value : ℚ) * (10 : ℚ) ^ q.scale

/-- The type `corev1.ResourceList`, a `map[ResourceName]Quantity`: its entries,
one per resource name. -/
abbrev ResourceList := List (String × Quantity)

/-- Lookup of a resource name in the map. -/
def ResourceList.get? (rl : ResourceList) (name : String) : Option Quantity :=
  (rl.find? (fun e => decide (e.1 = name))).map (fun e => e.2)

/-- The library's `ResourceList.Cpu()`: the entry `cpu`, or the zero quantity in
`DecimalSI` format. -/
def ResourceList.Cpu (rl : ResourceList) : Quantity :=
  match ResourceList.get? rl "cpu" with
  | some q => q
  | none => ⟨0, 0, "DecimalSI"⟩

/-- The library's `ResourceList.Memory()`: the entry `memory`, or the zero quantity
in `BinarySI` format. -/
def ResourceList.Memory (rl : ResourceList) : Quantity :=
  match ResourceList.get? rl "memory" with
  | some q => q
  | none => ⟨0, 0, "BinarySI"⟩

/-- The type `corev1.ResourceRequirements`; a claim is known by its name. -/
structure ResourceRequirements where
  Limits : ResourceList
  Requests : ResourceList
  Claims : List String
  deriving DecidableEq, Repr

/-- The function `ResourceRequirementsEqual(a, b)`; `b` is a pointer. -/
def ResourceRequirementsEqual (a : ResourceRequirements) (b : Option ResourceRequirements) :
    Bool :=
  match b with
  | none =>
      decide (a.Claims.length = 0) && decide (a.Limits.length = 0) &&
        decide (a.Requests.length = 0)
  | some b =>
      if a.Claims.length ≠ b.Claims.length then false
      else if a.Limits.length ≠ b.Limits.length then false
      else if a.Requests.length ≠ b.Requests.length then false
      else
        (ResourceList.Cpu a.Limits).Equal (ResourceList.Cpu b.Limits) &&
          (ResourceList.Memory a.Limits).Equal (ResourceList.Memory b.Limits) &&
          (ResourceList.Cpu a.Requests).Equal (ResourceList.Cpu b.Requests) &&
          (ResourceList.Memory a.Requests).Equal (ResourceList.Memory b.Requests)

/-! ## controllers: status conditions -/

/-- The type `metav1.Condition` without its transition time. -/
structure Condition where
  ConditionType : String
  Status : String
  Reason : String
  Message : String
  ObservedGeneration : Int
  deriving DecidableEq, Repr

/-- The type `operatorv1beta1.DataPlane`: metadata generation and status
conditions. -/
structure DataPlane where
  Generation : Int
  Conditions : List Condition
  deriving DecidableEq, Repr

/-- The type `operatorv1alpha1.ControlPlane`: metadata generation and status
conditions. -/
structure ControlPlane where
  Generation : Int
  Conditions : List Condition
  deriving DecidableEq, Repr

/-- The type parameter `T *operatorv1beta1.DataPlane | *operatorv1alpha1.ControlPlane`
of `markAsProvisioned`. -/
inductive ProvisionedResource where
  | DataPlane (resource : DataPlane)
  | ControlPlane (resource : ControlPlane)
  deriving DecidableEq, Repr

/-- The constants of package `controllers` that `markAsProvisioned` names, declared
in another file of the package. -/
structure ConditionConsts where
  DataPlaneConditionTypeProvisioned : String
  DataPlaneConditionReasonPodsReady : String
  ControlPlaneConditionTypeProvisioned : String
  ControlPlaneConditionReasonPodsReady : String

/-- The library constant `metav1.ConditionTrue`. -/
def ConditionTrue : String := "True"

/-- Modelled from the spec: the helper `k8sutils.NewConditionWithGeneration`,
declared in package `k8sutils`; the spec's condition
`{type, status, reason, message, observedGeneration}` with the arguments as
fields. -/
def NewConditionWithGeneration (conditionType status reason message : String)
    (observedGeneration : Int) : Condition :=
  ⟨conditionType, status, reason, message, observedGeneration⟩

/-- Modelled from the spec: the helper `k8sutils.SetCondition`, declared in package
`k8sutils`; conditions are "keyed by condition type" and "updated in place": the
condition replaces the one of its type, or is appended when there is none. -/
def SetCondition (condition : Condition) (conditions : List Condition) : List Condition :=
  if conditions.any (fun c => decide (c.ConditionType = condition.ConditionType)) then
    conditions.map (fun c =>
      if c.ConditionType = condition.ConditionType then condition else c)
  else conditions ++ [condition]

/-- The condition `markAsProvisioned` hands to `k8sutils.SetCondition`. -/
def provisionedCondition (K : ConditionConsts) (resource : ProvisionedResource) : Condition :=
  match resource with
  | .DataPlane resource =>
      NewConditionWithGeneration K.DataPlaneConditionTypeProvisioned ConditionTrue
        K.DataPlaneConditionReasonPodsReady "pods for all Deployments are ready"
        resource.Generation
  | .ControlPlane resource =>
      NewConditionWithGeneration K.ControlPlaneConditionTypeProvisioned ConditionTrue
        K.ControlPlaneConditionReasonPodsReady "pods for all Deployments are ready"
        resource.Generation

/-- The function `markAsProvisioned(resource)`: the resource after the call. -/
def markAsProvisioned (K : ConditionConsts) (resource : ProvisionedResource) :
    ProvisionedResource :=
  match resource with
  | .DataPlane resource =>
      .DataPlane ⟨resource.Generation,
        SetCondition
          (NewConditionWithGeneration K.DataPlaneConditionTypeProvisioned ConditionTrue
            K.DataPlaneConditionReasonPodsReady "pods for all Deployments are ready"
            resource.Generation)
          resource.Conditions⟩
  | .ControlPlane resource =>
      .ControlPlane ⟨resource.Generation,
        SetCondition
          (NewConditionWithGeneration K.ControlPlaneConditionTypeProvisioned ConditionTrue
            K.ControlPlaneConditionReasonPodsReady "pods for all Deployments are ready"
            resource.Generation)
          resource.Conditions⟩

/-- The status conditions of the resource. -/
def ProvisionedResource.conditions : ProvisionedResource → List Condition
  | .DataPlane resource => resource.Conditions
  | .ControlPlane resource => resource.Conditions

/-- The metadata generation of the resource. -/
def ProvisionedResource.generation : ProvisionedResource → Int
  | .DataPlane resource => resource.Generation
  | .ControlPlane resource => resource.Generation

/-- The five range checks of `GenerateNewClusterRoleForControlPlane` on a parsed
version, in the order of the source. -/
def rangeChecks (semVersion : Version) : List Bool :=
  [constraint_ge2_1_lt2_2.Check semVersion, constraint_ge2_2_lt2_3.Check semVersion,
   constraint_ge2_3_lt2_4.Check semVersion, constraint_ge2_4_lt2_6.Check semVersion,
   constraint_ge2_6.Check semVersion]

/-- The two results of a Go function `(T, error)` as the caller sees them: the
value, nil when there is an error, and the error, nil when there is a value. -/
def goResults {α : Type} (r : Except GoError α) : Option α × Option GoError :=
  match r with
  | .ok value => (some value, none)
  | .error err => (none, some err)

/-- The library's `NewConstraint` on the five constraint texts of this program,
each parsed to the value given above; any other text is refused here, with the
library's message for a text it cannot parse. -/
def NewConstraint (c : String) : Except GoError Constraints :=
  if c = ">=2.1,<2.2" then .ok constraint_ge2_1_lt2_2
  else if c = ">=2.2,<2.3" then .ok constraint_ge2_2_lt2_3
  else if c = ">=2.3,<2.4" then .ok constraint_ge2_3_lt2_4
  else if c = ">=2.4,<2.6" then .ok constraint_ge2_4_lt2_6
  else if c = ">=2.6" then .ok constraint_ge2_6
  else .error (.errorf ("improper constraint: " ++ c))

/-- `GenerateNewClusterRoleForControlPlane` return statement by return statement
(lines 37-82), with the two results as Go returns them: the ClusterRole pointer
(`none` is nil) and the error (`none` is nil). The generated functions return a
pointer, so the environment is over `Option ρ`; `newConstraint` is
`semver.NewConstraint`, whose error each call site checks. -/
def GenerateNewClusterRoleForControlPlaneReturns {ρ : Type}
    (newConstraint : String → Except GoError Constraints) (E : ClusterRoleEnv (Option ρ))
    (controlplaneName : String) (image : Option String) : Option ρ × Option GoError :=
  match NewVersion (imageVersion E image) with
  | .error err => (none, some err)
  | .ok semVersion =>
    match newConstraint ">=2.1,<2.2" with
    | .error err => (none, some err)
    | .ok constraint =>
      if constraint.Check semVersion then
        (E.GenerateNewClusterRoleForControlPlane_ge2_1_lt2_2 controlplaneName, none)
      else
        match newConstraint ">=2.2,<2.3" with
        | .error err => (none, some err)
        | .ok constraint =>
          if constraint.Check semVersion then
            (E.GenerateNewClusterRoleForControlPlane_ge2_2_lt2_3 controlplaneName, none)
          else
            match newConstraint ">=2.3,<2.4" with
            | .error err => (none, some err)
            | .ok constraint =>
              if constraint.Check semVersion then
                (E.GenerateNewClusterRoleForControlPlane_ge2_3_lt2_4 controlplaneName, none)
              else
                match newConstraint ">=2.4,<2.6" with
                | .error err => (none, some err)
                | .ok constraint =>
                  if constraint.Check semVersion then
                    (E.GenerateNewClusterRoleForControlPlane_ge2_4_lt2_6 controlplaneName, none)
                  else
                    match newConstraint ">=2.6" with
                    | .error err => (none, some err)
                    | .ok constraint =>
                      if constraint.Check semVersion then
                        (E.GenerateNewClusterRoleForControlPlane_ge2_6 controlplaneName, none)
                      else (none, some (versionNotSupported (imageVersion E image)))

/-- The five generated functions return a non-nil pointer for the name. -/
def ClusterRoleEnv.returnsNonNil {ρ : Type} (E : ClusterRoleEnv (Option ρ))
    (controlplaneName : String) : Prop :=
  E.GenerateNewClusterRoleForControlPlane_ge2_1_lt2_2 controlplaneName ≠ none ∧
  E.GenerateNewClusterRoleForControlPlane_ge2_2_lt2_3 controlplaneName ≠ none ∧
  E.GenerateNewClusterRoleForControlPlane_ge2_3_lt2_4 controlplaneName ≠ none ∧
  E.GenerateNewClusterRoleForControlPlane_ge2_4_lt2_6 controlplaneName ≠ none ∧
  E.GenerateNewClusterRoleForControlPlane_ge2_6 controlplaneName ≠ none

/-- An environment whose generated functions return the address of the
ClusterRole they build. -/
def ClusterRoleEnv.pointers {ρ : Type} (E : ClusterRoleEnv ρ) : ClusterRoleEnv (Option ρ) :=
  ⟨E.DefaultControlPlaneTag, E.Latest,
    fun n => some (E.GenerateNewClusterRoleForControlPlane_ge2_1_lt2_2 n),
    fun n => some (E.GenerateNewClusterRoleForControlPlane_ge2_2_lt2_3 n),
    fun n => some (E.GenerateNewClusterRoleForControlPlane_ge2_3_lt2_4 n),
    fun n => some (E.GenerateNewClusterRoleForControlPlane_ge2_4_lt2_6 n),
    fun n => some (E.GenerateNewClusterRoleForControlPlane_ge2_6 n)⟩

/-- A GatewayClass with the namespace of its parametersRef replaced. -/
def withParametersRefNamespace (ns : Option String) (gatewayClass : GatewayClass) :
    GatewayClass :=
  ⟨gatewayClass.Name,
    ⟨gatewayClass.Spec.ControllerName,
      gatewayClass.Spec.ParametersRef.map (fun ref => ⟨ref.Group, ref.Kind, ref.Name, ns⟩)⟩⟩

/-- The reconciler in a store state that lists the given GatewayClass objects. -/
def Reconciler.withClasses (r : Reconciler) (classes : List GatewayClass) : Reconciler :=
  ⟨⟨.ok classes, r.Client.ListGateways⟩, r.verifyGatewayClassSupport, r.ControllerName,
    r.ErrUnsupportedGateway, r.SchemeGroupVersionGroup⟩

/-! ## Labels of the children of a DataPlane -/

/-- The value of the state label of a child of a DataPlane
(`consts.DataPlaneStateLabelValuePreview`, `consts.DataPlaneStateLabelValueLive`). -/
inductive StateLabel where
  | preview
  | live
  deriving DecidableEq, Repr

/-- The value of the service-type label of a Service of a DataPlane
(`consts.DataPlaneAdminServiceLabelValue`, `consts.DataPlaneIngressServiceLabelValue`). -/
inductive ServiceTypeLabel where
  | admin
  | ingress
  deriving DecidableEq, Repr

/-! ## The blue/green rollout engine, from the specification -/

/-- Modelled from the spec: the states of the blue/green rollout engine, whose
code is in the DataPlane controller: `Stable`, `RolloutRequested`, `Progressing`,
`AwaitingPromotion`, `Promoting`. -/
inductive RolloutState where
  | Stable
  | RolloutRequested
  | Progressing
  | AwaitingPromotion
  | Promoting
  deriving DecidableEq, Repr

/-- Modelled from the spec: a Deployment of the generation-labelled child set of
a DataPlane, which the DataPlane controller manages: its name, its
`generationState` label, its pod template and its available replicas. -/
structure ChildDeployment where
  Name : String
  generationState : StateLabel
  podTemplate : String
  availableReplicas : Nat
  deriving DecidableEq, Repr

/-- Modelled from the spec: a live Service of the child set, which the DataPlane
controller manages: its type and the Deployment whose pods its selector
targets. -/
structure LiveService where
  serviceType : ServiceTypeLabel
  selects : String
  deriving DecidableEq, Repr

/-- Modelled from the spec: the DataPlaneObject as the rollout engine of the
DataPlane controller sees it: the state of the rollout, the Deployments of both
generations, the live Services and the promotion annotation. -/
structure RolloutObject where
  state : RolloutState
  deployments : List ChildDeployment
  liveServices : List LiveService
  promoteWhenReady : Option String
  deriving DecidableEq, Repr

/-- Modelled from the spec: the reason of the `RolledOut` condition that the
DataPlane controller writes; the reasons "map 1:1 onto the states", so the
reason is given by the state it stands for. -/
def rolledOutReason (o : RolloutObject) : RolloutState := o.state

/-- Modelled from the spec: the active endpoints of a live Service, counted by
the cluster: the available replicas of the Deployment its selector targets. -/
def activeEndpointsOf (o : RolloutObject) (service : LiveService) : Nat :=
  ((o.deployments.filter (fun d => decide (d.Name = service.selects))).map
    (fun d => d.availableReplicas)).sum

/-- Modelled from the spec: the Deployment of the preview generation, as the
rollout engine of the DataPlane controller finds it by its label. -/
def previewDeployment (o : RolloutObject) : Option ChildDeployment :=
  o.deployments.find? (fun d => decide (d.generationState = .preview))

/-- Modelled from the spec: readiness of the preview generation in the rollout
engine of the DataPlane controller: the "deployment has at least one available
replica AND the live selector has not yet been updated to route to it". -/
def previewReady (o : RolloutObject) : Bool :=
  match previewDeployment o with
  | none => false
  | some d =>
      decide (1 ≤ d.availableReplicas) &&
        o.liveServices.all (fun s => decide (s.selects ≠ d.Name))

/-- Modelled from the spec: step (1) of the promotion in the rollout engine of
the DataPlane controller: it "reselects the live service(s) to target the
preview deployment's pods". -/
def reselectLiveServices (target : String) (o : RolloutObject) : RolloutObject :=
  ⟨o.state, o.deployments, o.liveServices.map (fun s => ⟨s.serviceType, target⟩),
    o.promoteWhenReady⟩

/-- Modelled from the spec: step (2) of the promotion in the rollout engine of
the DataPlane controller: it "relabels the preview generation's deployment from
preview to live". -/
def relabelPreviewAsLive (o : RolloutObject) : RolloutObject :=
  ⟨o.state,
    o.deployments.map (fun d => ⟨d.Name, .live, d.podTemplate, d.availableReplicas⟩),
    o.liveServices, o.promoteWhenReady⟩

/-- Modelled from the spec: step (3) of the promotion in the rollout engine of
the DataPlane controller: it "deletes the now-superseded former-live children",
the Deployments that carried the live label when the promotion began. -/
def deleteFormerLive (formerLive : List String) (o : RolloutObject) : RolloutObject :=
  ⟨o.state, o.deployments.filter (fun d => decide (d.Name ∉ formerLive)), o.liveServices,
    o.promoteWhenReady⟩

/-- Modelled from the spec: step (4) of the promotion in the rollout engine of
the DataPlane controller: it "clears the promotion annotation from the object". -/
def clearPromotionAnnotation (o : RolloutObject) : RolloutObject :=
  ⟨o.state, o.deployments, o.liveServices, none⟩

/-- Modelled from the spec: the states a promotion of the rollout engine of the
DataPlane controller goes through, in order: the state `Promoting`, the states
after the steps (1) to (4), and `Stable`. -/
def promotionStates (o : RolloutObject) (preview : ChildDeployment) : List RolloutObject :=
  let formerLive :=
    (o.deployments.filter (fun d => decide (d.generationState = .live))).map (fun d => d.Name)
  let s0 : RolloutObject := ⟨.Promoting, o.deployments, o.liveServices, o.promoteWhenReady⟩
  let s1 := reselectLiveServices preview.Name s0
  let s2 := relabelPreviewAsLive s1
  let s3 := deleteFormerLive formerLive s2
  let s4 := clearPromotionAnnotation s3
  [s0, s1, s2, s3, s4, ⟨.Stable, s4.deployments, s4.liveServices, s4.promoteWhenReady⟩]

/-- Modelled from the spec: a pass of the rollout engine of the DataPlane
controller over an object in `AwaitingPromotion`: when the promotion annotation
has the value "true" and the preview generation is ready, the promotion is
carried out and the object is `Stable`; otherwise the object is left as it is. -/
def promoteWhenReadyPass (o : RolloutObject) : RolloutObject :=
  match o.state, previewDeployment o with
  | .AwaitingPromotion, some preview =>
      if o.promoteWhenReady = some "true" ∧ previewReady o = true then
        (promotionStates o preview).getLastD o
      else o
  | _, _ => o

/-- An object in `AwaitingPromotion`: the live Deployment runs `kong:3.0`, the
preview Deployment runs `kong:3.1` with one available replica, the live Services
select the live Deployment and the annotation is set. -/
def awaitingObject : RolloutObject :=
  ⟨.AwaitingPromotion,
    [⟨"dp-live", .live, "kong:3.0", 1⟩, ⟨"dp-preview", .preview, "kong:3.1", 1⟩],
    [⟨.admin, "dp-live"⟩, ⟨.ingress, "dp-live"⟩], some "true"⟩

/-- A reconciler whose store answers both listings with the given results, with
the controller name and the API group of the operator. -/
def reconcilerWith (classes : Except GoError (List GatewayClass))
    (gateways : Except GoError (List Gateway))
    (verify : Gateway → Except GoError Unit) : Reconciler :=
  ⟨⟨classes, gateways⟩, verify, "konghq.com/gateway-operator",
    .sentinel "unsupported gateway", "gateway-operator.konghq.com"⟩

/-! ## The version table of the specification -/

/-- A half-open range of the specification's version table: the floor
`major.minor`, and the ceiling `major.minor` when the range is bounded. -/
structure VersionRange where
  lo : Nat × Nat
  hi : Option (Nat × Nat)
  deriving DecidableEq, Repr

/-- In semantic-version precedence, `v` is not below `major.minor.0`. -/
def Version.atLeast (v : Version) (b : Nat × Nat) : Bool :=
  v.CompareRelease b.1 b.2 0 != .lt

/-- The range contains `v`: floor ≤ `v` < ceiling in semantic-version precedence. -/
def VersionRange.contains (r : VersionRange) (v : Version) : Bool :=
  v.atLeast r.lo &&
    match r.hi with
    | none => true
    | some h => !v.atLeast h

/-- The specification's ascending table `[2.1,2.2) [2.2,2.3) [2.3,2.4) [2.4,2.6)
[2.6,∞)`, each range with the permission set bound to it. -/
def rangeTable {ρ : Type} (E : ClusterRoleEnv ρ) : List (VersionRange × (String → ρ)) :=
  [ (⟨(2, 1), some (2, 2)⟩, E.GenerateNewClusterRoleForControlPlane_ge2_1_lt2_2),
    (⟨(2, 2), some (2, 3)⟩, E.GenerateNewClusterRoleForControlPlane_ge2_2_lt2_3),
    (⟨(2, 3), some (2, 4)⟩, E.GenerateNewClusterRoleForControlPlane_ge2_3_lt2_4),
    (⟨(2, 4), some (2, 6)⟩, E.GenerateNewClusterRoleForControlPlane_ge2_4_lt2_6),
    (⟨(2, 6), none⟩, E.GenerateNewClusterRoleForControlPlane_ge2_6) ]

/-- The permission set bound to the first range of the table that contains `v`. -/
def firstRange {ρ : Type} (E : ClusterRoleEnv ρ) (v : Version) : Option (String → ρ) :=
  ((rangeTable E).find? (fun row => row.1.contains v)).map (fun row => row.2)

/-! ## Lemmas on `strings.Split` and on the loops -/

theorem splitChars_ne_nil (sep : Char) (s : List Char) : splitChars sep s ≠ [] := by
  induction s with
  | nil => simp [splitChars]
  | cons c cs ih =>
      unfold splitChars
      split
      · simp
      · split
        · simp
        · simp

theorem splitChars_of_not_mem (sep : Char) (s : List Char) (h : sep ∉ s) :
    splitChars sep s = [s] := by
  induction s with
  | nil => simp [splitChars]
  | cons c cs ih =>
      have hc : c ≠ sep := fun e => h (by simp [e])
      have hcs : sep ∉ cs := fun m => h (List.mem_cons_of_mem _ m)
      simp [splitChars, hc, ih hcs]

theorem splitChars_append_sep (sep : Char) (a b : List Char) :
    splitChars sep (a ++ sep :: b) = splitChars sep a ++ splitChars sep b := by
  induction a with
  | nil => simp [splitChars]
  | cons c cs ih =>
      by_cases hc : c = sep
      · simp [splitChars, hc, ih]
      · cases hs : splitChars sep cs with
        | nil => exact absurd hs (splitChars_ne_nil sep cs)
        | cons p ps => simp [splitChars, hc, ih, hs]

theorem length_splitChars_pos (sep : Char) (s : List Char) :
    1 ≤ (splitChars sep s).length := by
  cases h : splitChars sep s with
  | nil => exact absurd h (splitChars_ne_nil sep s)
  | cons p ps => simp

theorem splitChars_singleton (sep : Char) (s x : List Char)
    (h : splitChars sep s = [x]) : x = s := by
  by_cases hm : sep ∈ s
  · obtain ⟨a, b, rfl⟩ := List.append_of_mem hm
    have ha := length_splitChars_pos sep a
    have hb := length_splitChars_pos sep b
    have hl := congrArg List.length h
    rw [splitChars_append_sep, List.length_append] at hl
    simp at hl
    omega
  · rw [splitChars_of_not_mem sep s hm] at h
    simpa using h.symm

theorem stringsSplitColon_singleton (s q : String) (h : stringsSplitColon s = [q]) :
    q = s := by
  unfold stringsSplitColon at h
  cases hs : splitChars ':' s.data with
  | nil => exact absurd hs (splitChars_ne_nil _ _)
  | cons x xs =>
      rw [hs] at h
      cases xs with
      | nil =>
          have hx := splitChars_singleton ':' s.data x hs
          simp only [List.map_cons, List.map_nil, List.cons.injEq, and_true] at h
          rw [← h, hx]
      | cons y ys => simp at h

theorem stringsSplitColon_append (a b : String) :
    stringsSplitColon (a ++ ":" ++ b) = stringsSplitColon a ++ stringsSplitColon b := by
  have : (a ++ ":" ++ b).data = a.data ++ ':' :: b.data := by
    simp [String.data_append]
  simp [stringsSplitColon, this, splitChars_append_sep]

theorem stringsSplitColon_of_not_mem (s : String) (h : ':' ∉ s.data) :
    stringsSplitColon s = [s] := by
  simp [stringsSplitColon, splitChars_of_not_mem _ _ h]

theorem length_stringsSplitColon_pos (s : String) : 1 ≤ (stringsSplitColon s).length := by
  simp [stringsSplitColon, length_splitChars_pos]

theorem append_colon_ne_empty (a b : String) : a ++ ":" ++ b ≠ "" := by
  intro h
  have hlen := congrArg String.length h
  simp only [String.length_append] at hlen
  have hcolon : ":".length = 1 := by decide
  have hempty : "".length = 0 := by decide
  omega

theorem foldl_append_filter {α β : Type} (p : α → Prop) [DecidablePred p] (f : α → β)
    (l : List α) (init : List β) :
    l.foldl (fun recs x => if p x then recs ++ [f x] else recs) init
      = init ++ (l.filter (fun x => decide (p x))).map f := by
  induction l generalizing init with
  | nil => simp
  | cons x xs ih =>
      by_cases hx : p x
      · simp [List.foldl_cons, hx, ih, List.filter_cons]
      · simp [List.foldl_cons, hx, ih, List.filter_cons]

/-! ## Lemmas on the version text of an image -/

theorem imageVersion_tagged {ρ : Type} (E : ClusterRoleEnv ρ) (repo tag : String)
    (hrepo : ':' ∉ repo.data) (htag : ':' ∉ tag.data) (hlatest : tag ≠ "latest") :
    imageVersion E (some (repo ++ ":" ++ tag)) = tag := by
  simp [imageVersion, append_colon_ne_empty, stringsSplitColon_append,
    stringsSplitColon_of_not_mem _ hrepo, stringsSplitColon_of_not_mem _ htag, hlatest]

theorem imageVersion_untagged {ρ : Type} (E : ClusterRoleEnv ρ) (image : String)
    (hne : image ≠ "") (hcolon : ':' ∉ image.data) :
    imageVersion E (some image) = E.Latest := by
  simp [imageVersion, hne, stringsSplitColon_of_not_mem _ hcolon]

theorem imageVersion_latest_tag {ρ : Type} (E : ClusterRoleEnv ρ) (repo : String) :
    imageVersion E (some (repo ++ ":" ++ "latest")) = E.Latest := by
  have hl : stringsSplitColon "latest" = ["latest"] := by decide
  have hpos := length_stringsSplitColon_pos repo
  simp only [imageVersion, append_colon_ne_empty, stringsSplitColon_append, hl, ne_eq,
    not_false_eq_true, if_true]
  cases hs : stringsSplitColon repo with
  | nil => simp [hs] at hpos
  | cons p ps =>
      cases ps with
      | nil => simp
      | cons q qs => simp

theorem imageVersion_explicit_latest {ρ : Type} (E : ClusterRoleEnv ρ) (repo : String) :
    imageVersion E (some (repo ++ ":" ++ E.Latest)) = E.Latest := by
  have hpos := length_stringsSplitColon_pos repo
  have hpos2 := length_stringsSplitColon_pos E.Latest
  simp only [imageVersion, append_colon_ne_empty, stringsSplitColon_append, ne_eq,
    not_false_eq_true, if_true]
  cases hs : stringsSplitColon repo with
  | nil => simp [hs] at hpos
  | cons p ps =>
      cases hl : stringsSplitColon E.Latest with
      | nil => simp [hl] at hpos2
      | cons q qs =>
          cases ps with
          | nil =>
              cases qs with
              | nil =>
                  have hq := stringsSplitColon_singleton E.Latest q hl
                  simp [hq]
              | cons q2 qs2 => simp
          | cons p2 ps2 => simp

theorem imageVersion_two_colons {ρ : Type} (E : ClusterRoleEnv ρ) (a b c : String) :
    imageVersion E (some (a ++ ":" ++ b ++ ":" ++ c)) = E.Latest := by
  have ha := length_stringsSplitColon_pos a
  have hb := length_stringsSplitColon_pos b
  have hc := length_stringsSplitColon_pos c
  have hlen : (stringsSplitColon (a ++ ":" ++ b ++ ":" ++ c)).length ≠ 2 := by
    simp only [stringsSplitColon_append, List.length_append]
    omega
  simp [imageVersion, append_colon_ne_empty, hlen]

/-! ## The ClusterRole generator: version ranges -/

theorem check_bounded_of_release (v : Version) (hpre : v.pre = "") (a b c d : Nat) :
    Constraints.Check ⟨[[⟨.greaterThanEqual, a, b, 0⟩, ⟨.lessThan, c, d, 0⟩]]⟩ v
      = (v.atLeast (a, b) && !v.atLeast (c, d)) := by
  simp only [Constraints.Check, constraint.check, hpre, Version.atLeast, List.any_cons,
    List.any_nil, List.all_cons, List.all_nil, ne_eq, not_true_eq_false, if_false,
    Bool.and_true, Bool.or_false]
  cases v.CompareRelease c d 0 <;> cases v.CompareRelease a b 0 <;> rfl

theorem check_unbounded_of_release (v : Version) (hpre : v.pre = "") (a b : Nat) :
    Constraints.Check ⟨[[⟨.greaterThanEqual, a, b, 0⟩]]⟩ v = v.atLeast (a, b) := by
  simp [Constraints.Check, constraint.check, hpre, Version.atLeast]

theorem check_of_prerelease (v : Version) (hpre : v.pre ≠ "") (cs : Constraints)
    (hcs : ∀ o ∈ cs.constraints, o ≠ []) : cs.Check v = false := by
  have hc : ∀ c : constraint, c.check v = false := by
    intro c
    simp [constraint.check, hpre]
  simp only [Constraints.Check, List.any_eq_false]
  intro o ho
  cases o with
  | nil => exact absurd rfl (hcs [] ho)
  | cons c cs => simp [hc]

theorem checkRanges_of_release {ρ : Type} (E : ClusterRoleEnv ρ)
    (controlplaneName version : String) (v : Version) (hpre : v.pre = "") :
    checkRanges E controlplaneName version v =
      match firstRange E v with
      | some gen => .ok (gen controlplaneName)
      | none => .error (versionNotSupported version) := by
  simp only [checkRanges, constraint_ge2_1_lt2_2, constraint_ge2_2_lt2_3,
    constraint_ge2_3_lt2_4, constraint_ge2_4_lt2_6, constraint_ge2_6,
    check_bounded_of_release v hpre, check_unbounded_of_release v hpre, firstRange,
    rangeTable, List.find?, VersionRange.contains]
  generalize v.atLeast (2, 1) = b1
  generalize v.atLeast (2, 2) = b2
  generalize v.atLeast (2, 3) = b3
  generalize v.atLeast (2, 4) = b4
  generalize v.atLeast (2, 6) = b6
  cases b1 <;> cases b2 <;> cases b3 <;> cases b4 <;> cases b6 <;> rfl

theorem checkRanges_of_prerelease {ρ : Type} (E : ClusterRoleEnv ρ)
    (controlplaneName version : String) (v : Version) (hpre : v.pre ≠ "") :
    checkRanges E controlplaneName version v = .error (versionNotSupported version) := by
  simp [checkRanges, check_of_prerelease v hpre, constraint_ge2_1_lt2_2,
    constraint_ge2_2_lt2_3, constraint_ge2_3_lt2_4, constraint_ge2_4_lt2_6, constraint_ge2_6]

/-- C1, counterexample: the tag `2.5.0-rc.1` parses to a semantic version that
lies in [2.4,2.6) by precedence, and the generator returns the unsupported-version
error instead of the permission set of that range. -/
theorem C1_counterexample_prerelease :
    NewVersion "2.5.0-rc.1" = .ok ⟨2, 5, 0, "rc.1", "", "2.5.0-rc.1"⟩ ∧
    (firstRange (taggedEnv "2.6.0" "2.6.0") ⟨2, 5, 0, "rc.1", "", "2.5.0-rc.1"⟩).map
        (fun gen => gen "cp") = some (TaggedRole.ge2_4_lt2_6 "cp") ∧
    GenerateNewClusterRoleForControlPlane (taggedEnv "2.6.0" "2.6.0") "cp"
        (some "kong/kubernetes-ingress-controller:2.5.0-rc.1")
      = .error (versionNotSupported "2.5.0-rc.1") := by
  refine ⟨by rfl, by rfl, by rfl⟩

/-- C1, amended: for an image `repo:tag` with exactly one colon, a tag other than
`latest` that parses to a version without pre-release part, the generator returns
(with nil error) the permission set of the first range of the table
[2.1,2.2) [2.2,2.3) [2.3,2.4) [2.4,2.6) [2.6,∞) that contains the version. -/
theorem C1_generate_first_range_release {ρ : Type} (E : ClusterRoleEnv ρ)
    (controlplaneName repo tag : String) (v : Version) (gen : String → ρ)
    (hrepo : ':' ∉ repo.data) (htag : ':' ∉ tag.data) (hlatest : tag ≠ "latest")
    (hparse : NewVersion tag = .ok v) (hpre : v.pre = "")
    (hfirst : firstRange E v = some gen) :
    GenerateNewClusterRoleForControlPlane E controlplaneName (some (repo ++ ":" ++ tag))
      = .ok (gen controlplaneName) := by
  unfold GenerateNewClusterRoleForControlPlane
  rw [imageVersion_tagged E repo tag hrepo htag hlatest, hparse]
  simp only [checkRanges_of_release E controlplaneName tag v hpre, hfirst]

/-- C1, witness: the tags 2.1.0, 2.5.9, 2.6.0 and 2.11. -/
theorem C1_witness_tags :
    GenerateNewClusterRoleForControlPlane (taggedEnv "2.6.0" "2.6.0") "cp"
        (some ("kong/kubernetes-ingress-controller" ++ ":" ++ "2.1.0"))
      = .ok (TaggedRole.ge2_1_lt2_2 "cp") ∧
    GenerateNewClusterRoleForControlPlane (taggedEnv "2.6.0" "2.6.0") "cp"
        (some ("kong/kubernetes-ingress-controller" ++ ":" ++ "2.5.9"))
      = .ok (TaggedRole.ge2_4_lt2_6 "cp") ∧
    GenerateNewClusterRoleForControlPlane (taggedEnv "2.6.0" "2.6.0") "cp"
        (some ("kong/kubernetes-ingress-controller" ++ ":" ++ "2.6.0"))
      = .ok (TaggedRole.ge2_6 "cp") ∧
    GenerateNewClusterRoleForControlPlane (taggedEnv "2.6.0" "2.6.0") "test_2.11"
        (some ("kong/kubernetes-ingress-controller" ++ ":" ++ "2.11"))
      = .ok (TaggedRole.ge2_6 "test_2.11") :=
  ⟨C1_generate_first_range_release _ "cp" _ "2.1.0" ⟨2, 1, 0, "", "", "2.1.0"⟩
      TaggedRole.ge2_1_lt2_2 (by decide) (by decide) (by decide) (by rfl) (by rfl) (by rfl),
   C1_generate_first_range_release _ "cp" _ "2.5.9" ⟨2, 5, 9, "", "", "2.5.9"⟩
      TaggedRole.ge2_4_lt2_6 (by decide) (by decide) (by decide) (by rfl) (by rfl) (by rfl),
   C1_generate_first_range_release _ "cp" _ "2.6.0" ⟨2, 6, 0, "", "", "2.6.0"⟩
      TaggedRole.ge2_6 (by decide) (by decide) (by decide) (by rfl) (by rfl) (by rfl),
   C1_generate_first_range_release _ "test_2.11" _ "2.11" ⟨2, 11, 0, "", "", "2.11"⟩
      TaggedRole.ge2_6 (by decide) (by decide) (by decide) (by rfl) (by rfl) (by rfl)⟩

theorem atLeast_minor_mono (v : Version) (a b b2 : Nat) (hb : b ≤ b2)
    (h : v.atLeast (a, b) = false) : v.atLeast (a, b2) = false := by
  simp only [Version.atLeast, Version.CompareRelease] at h ⊢
  split_ifs at h ⊢ <;> first | rfl | omega | exact absurd h (by decide)

theorem firstRange_of_below_floor {ρ : Type} (E : ClusterRoleEnv ρ) (v : Version)
    (h : v.atLeast (2, 1) = false) : firstRange E v = none := by
  have h2 := atLeast_minor_mono v 2 1 2 (by omega) h
  have h3 := atLeast_minor_mono v 2 1 3 (by omega) h
  have h4 := atLeast_minor_mono v 2 1 4 (by omega) h
  have h6 := atLeast_minor_mono v 2 1 6 (by omega) h
  simp [firstRange, rangeTable, List.find?, VersionRange.contains, h, h2, h3, h4, h6]

theorem NewVersion_original (s : String) (v : Version) (h : NewVersion s = .ok v) :
    v.original = s := by
  unfold NewVersion at h
  split at h
  · simp at h
  · split at h
    · simp at h
    · split at h
      · simp at h
      · split at h
        · simp at h
        · simp only [Except.ok.injEq] at h
          rw [← h]

theorem parseSegment_error (ds : List Char) (e : GoError) (h : parseSegment ds = .error e) :
    ∃ msg, e = .errorf msg := by
  unfold parseSegment at h
  split at h
  · simp at h
  · simp only [Except.error.injEq] at h
    exact ⟨_, h.symm⟩

theorem parseOptSegment_error (ds : Option (List Char)) (e : GoError)
    (h : parseOptSegment ds = .error e) : ∃ msg, e = .errorf msg := by
  cases ds with
  | none => simp [parseOptSegment] at h
  | some d => exact parseSegment_error d e h

theorem NewVersion_error (s : String) (e : GoError) (h : NewVersion s = .error e) :
    e = ErrInvalidSemVer ∨ ∃ msg, e = .errorf msg := by
  unfold NewVersion at h
  split at h
  · simp only [Except.error.injEq] at h
    exact Or.inl h.symm
  · split at h
    · rename_i e1 h1
      simp only [Except.error.injEq] at h
      exact Or.inr (h ▸ parseSegment_error _ _ h1)
    · split at h
      · rename_i e2 h2
        simp only [Except.error.injEq] at h
        exact Or.inr (h ▸ parseOptSegment_error _ _ h2)
      · split at h
        · rename_i e3 h3
          simp only [Except.error.injEq] at h
          exact Or.inr (h ▸ parseOptSegment_error _ _ h3)
        · simp at h

/-- C2, counterexample: the tag 1.0.0 parses to a version below the floor 2.1,
yet the image `registry.example.com:5000/kong/kic:1.0.0`, which has two colons,
resolves `versions.Latest` in every environment, and with 2.6.0 for that constant
the generator returns a ClusterRole and no error; and for the image
`kong/kubernetes-ingress-controller:1.0.0` the error is the value made by
`fmt.Errorf`, which `errors.Is` matches with no sentinel. -/
theorem C2_counterexample_registry_port :
    NewVersion "1.0.0" = .ok ⟨1, 0, 0, "", "", "1.0.0"⟩ ∧
    Version.atLeast ⟨1, 0, 0, "", "", "1.0.0"⟩ (2, 1) = false ∧
    (∀ E : ClusterRoleEnv TaggedRole,
      imageVersion E (some "registry.example.com:5000/kong/kic:1.0.0") = E.Latest) ∧
    goResults (GenerateNewClusterRoleForControlPlane (taggedEnv "2.6.0" "2.6.0") "cp"
        (some "registry.example.com:5000/kong/kic:1.0.0"))
      = (some (TaggedRole.ge2_6 "cp"), none) ∧
    GenerateNewClusterRoleForControlPlane (taggedEnv "2.6.0" "2.6.0") "cp"
        (some "kong/kubernetes-ingress-controller:1.0.0")
      = .error (.errorf "version 1.0.0 not supported") ∧
    (∀ text : String,
      errorsIs (.errorf "version 1.0.0 not supported") (.sentinel text) = false) := by
  refine ⟨by rfl, by rfl, ?_, by rfl, by rfl, ?_⟩
  · intro E
    have h := imageVersion_two_colons E "registry.example.com" "5000/kong/kic" "1.0.0"
    have himg : ("registry.example.com" ++ ":" ++ "5000/kong/kic" ++ ":" ++ "1.0.0" : String)
        = "registry.example.com:5000/kong/kic:1.0.0" := by decide
    rw [himg] at h
    exact h
  · intro text
    simp [errorsIs]

/-- C2, amended: for an image `repo:tag` with exactly one colon whose tag, other
than `latest`, parses to a semantic version below the floor 2.1, the generator
returns no permission set and the error of
`fmt.Errorf("version %s not supported", version)`: a formatted error that is no
sentinel, whose message carries the version as the tag writes it. -/
theorem C2_below_floor_unsupported {ρ : Type} (E : ClusterRoleEnv ρ)
    (controlplaneName repo tag : String) (v : Version)
    (hrepo : ':' ∉ repo.data) (htag : ':' ∉ tag.data) (hlatest : tag ≠ "latest")
    (hparse : NewVersion tag = .ok v) (hbelow : v.atLeast (2, 1) = false) :
    goResults (GenerateNewClusterRoleForControlPlane E controlplaneName
        (some (repo ++ ":" ++ tag)))
      = (none, some (.errorf ("version " ++ tag ++ " not supported"))) ∧
    GenerateNewClusterRoleForControlPlane E controlplaneName (some (repo ++ ":" ++ tag))
      = .error (versionNotSupported v.original) ∧
    v.original = tag ∧
    (∀ text : String,
      errorsIs (.errorf ("version " ++ tag ++ " not supported")) (.sentinel text) = false) := by
  have horig := NewVersion_original tag v hparse
  have hgen : GenerateNewClusterRoleForControlPlane E controlplaneName
      (some (repo ++ ":" ++ tag)) = .error (versionNotSupported tag) := by
    unfold GenerateNewClusterRoleForControlPlane
    rw [imageVersion_tagged E repo tag hrepo htag hlatest, hparse]
    by_cases hpre : v.pre = ""
    · simp only [checkRanges_of_release E controlplaneName tag v hpre,
        firstRange_of_below_floor E v hbelow]
    · exact checkRanges_of_prerelease E controlplaneName tag v hpre
  refine ⟨?_, ?_, horig, ?_⟩
  · rw [hgen]
    rfl
  · rw [horig]
    exact hgen
  · intro text
    simp [errorsIs]

/-- C2, witness: the tag 1.0.0. -/
theorem C2_witness_1_0_0 :
    goResults (GenerateNewClusterRoleForControlPlane (taggedEnv "2.6.0" "2.6.0") "cp"
        (some ("kong/kubernetes-ingress-controller" ++ ":" ++ "1.0.0")))
      = (none, some (.errorf ("version " ++ "1.0.0" ++ " not supported"))) ∧
    GenerateNewClusterRoleForControlPlane (taggedEnv "2.6.0" "2.6.0") "cp"
        (some ("kong/kubernetes-ingress-controller" ++ ":" ++ "1.0.0"))
      = .error (versionNotSupported "1.0.0") :=
  ⟨(C2_below_floor_unsupported _ "cp" _ "1.0.0" ⟨1, 0, 0, "", "", "1.0.0"⟩
      (by decide) (by decide) (by decide) (by rfl) (by rfl)).1,
   (C2_below_floor_unsupported (taggedEnv "2.6.0" "2.6.0") "cp"
      "kong/kubernetes-ingress-controller" "1.0.0" ⟨1, 0, 0, "", "", "1.0.0"⟩
      (by decide) (by decide) (by decide) (by rfl) (by rfl)).2.1⟩

theorem errorsIs_eq_of_not_wrap (err target : GoError)
    (h : err = ErrInvalidSemVer ∨ ∃ msg, err = .errorf msg) :
    errorsIs err target = true ↔ target = err := by
  rcases h with rfl | ⟨msg, rfl⟩
  · simp [errorsIs, ErrInvalidSemVer, eq_comm]
  · simp [errorsIs, eq_comm]

/-- C3, counterexample: the tag `99999999999999999999.0.0` is rejected by the
version parser with a formatted segment error, which is not the invalid-version
sentinel; and the image `registry.example.com:5000/test/development:main`, whose
tag `main` is no version, has two colons and gets, with 2.6.0 for
`versions.Latest`, a ClusterRole and no error. -/
theorem C3_counterexample_segment_overflow :
    GenerateNewClusterRoleForControlPlane (taggedEnv "2.6.0" "2.6.0") "cp"
        (some "test/development:99999999999999999999.0.0")
      = .error (.errorf ("Error parsing version segment: strconv.ParseInt: parsing " ++
          "\"99999999999999999999\": value out of range")) ∧
    errorsIs (.errorf ("Error parsing version segment: strconv.ParseInt: parsing " ++
        "\"99999999999999999999\": value out of range")) ErrInvalidSemVer = false ∧
    NewVersion "main" = .error ErrInvalidSemVer ∧
    goResults (GenerateNewClusterRoleForControlPlane (taggedEnv "2.6.0" "2.6.0") "cp"
        (some "registry.example.com:5000/test/development:main"))
      = (some (TaggedRole.ge2_6 "cp"), none) := by
  refine ⟨by rfl, by rfl, by rfl, by rfl⟩

/-- C3, amended: for an image `repo:tag` with exactly one colon whose tag is not
`latest` and is rejected by the version parser, the generator returns no
permission set and the parser's error as it is, in every environment: the
sentinel `ErrInvalidSemVer` of the semver library exactly when the tag does not
have the shape of a version, a formatted segment error otherwise; `errors.Is`
matches the returned error with no error other than itself. -/
theorem C3_invalid_version_error {ρ : Type} (E : ClusterRoleEnv ρ)
    (controlplaneName repo tag : String) (err : GoError)
    (hrepo : ':' ∉ repo.data) (htag : ':' ∉ tag.data) (hlatest : tag ≠ "latest")
    (hparse : NewVersion tag = .error err) :
    goResults (GenerateNewClusterRoleForControlPlane E controlplaneName
        (some (repo ++ ":" ++ tag))) = (none, some err) ∧
    (versionRegexMatch tag.data = none → err = ErrInvalidSemVer) ∧
    (versionRegexMatch tag.data ≠ none → ∃ msg, err = .errorf msg) ∧
    (∀ target : GoError, errorsIs err target = true ↔ target = err) := by
  refine ⟨?_, ?_, ?_, ?_⟩
  · unfold GenerateNewClusterRoleForControlPlane
    rw [imageVersion_tagged E repo tag hrepo htag hlatest, hparse]
    rfl
  · intro hm
    unfold NewVersion at hparse
    rw [hm] at hparse
    simpa using hparse.symm
  · intro hm
    unfold NewVersion at hparse
    split at hparse
    · rename_i h0
      exact absurd h0 hm
    · split at hparse
      · rename_i e1 h1
        simp only [Except.error.injEq] at hparse
        exact hparse ▸ parseSegment_error _ _ h1
      · split at hparse
        · rename_i e2 h2
          simp only [Except.error.injEq] at hparse
          exact hparse ▸ parseOptSegment_error _ _ h2
        · split at hparse
          · rename_i e3 h3
            simp only [Except.error.injEq] at hparse
            exact hparse ▸ parseOptSegment_error _ _ h3
          · simp at hparse
  · intro target
    exact errorsIs_eq_of_not_wrap err target (NewVersion_error tag err hparse)

/-- C3, witness: the images `test/development:main` and
`test/development:not-a-version`. -/
theorem C3_witness_main :
    goResults (GenerateNewClusterRoleForControlPlane (taggedEnv "2.6.0" "2.6.0")
        "test_invalid_tag" (some ("test/development" ++ ":" ++ "main")))
      = (none, some ErrInvalidSemVer) ∧
    goResults (GenerateNewClusterRoleForControlPlane (taggedEnv "2.6.0" "2.6.0")
        "cp" (some ("test/development" ++ ":" ++ "not-a-version")))
      = (none, some ErrInvalidSemVer) :=
  ⟨(C3_invalid_version_error _ "test_invalid_tag" "test/development" "main" ErrInvalidSemVer
      (by decide) (by decide) (by decide) (by rfl)).1,
   (C3_invalid_version_error (taggedEnv "2.6.0" "2.6.0") "cp" "test/development"
      "not-a-version" ErrInvalidSemVer (by decide) (by decide) (by decide) (by rfl)).1⟩

/-! ## The ClusterRole generator: the version text of an image -/

theorem generate_congr {ρ : Type} (E : ClusterRoleEnv ρ) (controlplaneName : String)
    (image1 image2 : Option String) (h : imageVersion E image1 = imageVersion E image2) :
    GenerateNewClusterRoleForControlPlane E controlplaneName image1
      = GenerateNewClusterRoleForControlPlane E controlplaneName image2 := by
  unfold GenerateNewClusterRoleForControlPlane
  rw [h]

/-- C4, counterexample: `strings.Split` cuts the reference with a registry port
into three parts, so the version text is `versions.Latest` (in every
environment) and not the text `2.5.0` after the last colon; with `2.6.0` for
`versions.Latest` the result is the [2.6,∞) set, not the [2.4,2.6) set. -/
theorem C4_counterexample_registry_port :
    stringsSplitColon "registry.example.com:5000/kong/kic:2.5.0"
      = ["registry.example.com", "5000/kong/kic", "2.5.0"] ∧
    (∀ E : ClusterRoleEnv TaggedRole,
      imageVersion E (some "registry.example.com:5000/kong/kic:2.5.0") = E.Latest) ∧
    imageVersion (taggedEnv "2.6.0" "2.6.0")
        (some "registry.example.com:5000/kong/kic:2.5.0") ≠ "2.5.0" ∧
    GenerateNewClusterRoleForControlPlane (taggedEnv "2.6.0" "2.6.0") "cp"
        (some "registry.example.com:5000/kong/kic:2.5.0") = .ok (TaggedRole.ge2_6 "cp") := by
  refine ⟨by decide, ?_, by decide, by rfl⟩
  intro E
  exact imageVersion_two_colons E "registry.example.com" "5000/kong/kic" "2.5.0"

/-- C4, amended: for an image `repo:tag` with exactly one colon and a tag other
than `latest`, the version text that the generator parses is the tag; an image
with two or more colons (a registry with a port) resolves `versions.Latest`. -/
theorem C4_version_text_one_colon {ρ : Type} (E : ClusterRoleEnv ρ)
    (controlplaneName repo tag a b c : String)
    (hrepo : ':' ∉ repo.data) (htag : ':' ∉ tag.data) (hlatest : tag ≠ "latest") :
    imageVersion E (some (repo ++ ":" ++ tag)) = tag ∧
    GenerateNewClusterRoleForControlPlane E controlplaneName (some (repo ++ ":" ++ tag))
      = (match NewVersion tag with
         | .error err => .error err
         | .ok semVersion => checkRanges E controlplaneName tag semVersion) ∧
    imageVersion E (some (a ++ ":" ++ b ++ ":" ++ c)) = E.Latest := by
  refine ⟨imageVersion_tagged E repo tag hrepo htag hlatest, ?_,
    imageVersion_two_colons E a b c⟩
  unfold GenerateNewClusterRoleForControlPlane
  rw [imageVersion_tagged E repo tag hrepo htag hlatest]

/-- C4, witness: `kong/kubernetes-ingress-controller:2.5.0` and the reference with
a registry port. -/
theorem C4_witness_one_colon :
    imageVersion (taggedEnv "2.6.0" "2.6.0")
        (some ("kong/kubernetes-ingress-controller" ++ ":" ++ "2.5.0")) = "2.5.0" ∧
    imageVersion (taggedEnv "2.6.0" "2.6.0")
        (some ("registry.example.com" ++ ":" ++ "5000/kong/kic" ++ ":" ++ "2.5.0"))
      = "2.6.0" :=
  have h := C4_version_text_one_colon (taggedEnv "2.6.0" "2.6.0") "cp"
    "kong/kubernetes-ingress-controller" "2.5.0" "registry.example.com" "5000/kong/kic"
    "2.5.0" (by decide) (by decide) (by decide)
  ⟨h.1, h.2.2⟩

/-- C5: for a non-empty image without colon, and for an image whose tag is
`latest`, the generator resolves `versions.Latest`: its result is the result for
the same repository tagged with `versions.Latest`. -/
theorem C5_untagged_or_latest {ρ : Type} (E : ClusterRoleEnv ρ)
    (controlplaneName image repo : String)
    (h : (image = repo ∧ repo ≠ "" ∧ ':' ∉ repo.data) ∨ image = repo ++ ":" ++ "latest") :
    imageVersion E (some image) = E.Latest ∧
    GenerateNewClusterRoleForControlPlane E controlplaneName (some image)
      = GenerateNewClusterRoleForControlPlane E controlplaneName
          (some (repo ++ ":" ++ E.Latest)) := by
  have hv : imageVersion E (some image) = E.Latest := by
    rcases h with ⟨rfl, hne, hcolon⟩ | rfl
    · exact imageVersion_untagged E image hne hcolon
    · exact imageVersion_latest_tag E repo
  refine ⟨hv, generate_congr E controlplaneName _ _ ?_⟩
  rw [hv, imageVersion_explicit_latest]

/-- C5, witness: the untagged image `kong/kubernetes-ingress-controller`. -/
theorem C5_witness_untagged :
    imageVersion (taggedEnv "2.4.0" "2.6.0") (some "kong/kubernetes-ingress-controller")
      = "2.6.0" ∧
    GenerateNewClusterRoleForControlPlane (taggedEnv "2.4.0" "2.6.0") "cp"
        (some "kong/kubernetes-ingress-controller")
      = GenerateNewClusterRoleForControlPlane (taggedEnv "2.4.0" "2.6.0") "cp"
          (some ("kong/kubernetes-ingress-controller" ++ ":" ++ "2.6.0")) :=
  C5_untagged_or_latest (taggedEnv "2.4.0" "2.6.0") "cp"
    "kong/kubernetes-ingress-controller" "kong/kubernetes-ingress-controller"
    (Or.inl ⟨rfl, by decide, by decide⟩)

/-! ## Watch predicates -/

/-- C6: when listing the GatewayClass objects fails, the predicate
`gatewayConfigurationMatchesController` returns true for every object. -/
theorem C6_configuration_predicate_fails_open (r : Reconciler) (obj : Object)
    (err : GoError) (hlist : r.Client.ListGatewayClasses = .error err) :
    gatewayConfigurationMatchesController r obj = true := by
  simp [gatewayConfigurationMatchesController, hlist]

/-- C6, witness: a store whose listing of GatewayClass objects times out. -/
theorem C6_witness_list_error :
    gatewayConfigurationMatchesController
      (reconcilerWith (.error (.errorf "context deadline exceeded")) (.ok [])
        (fun _ => .ok ()))
      (.GatewayConfiguration ⟨"default", "cfg", ⟨none, none⟩⟩) = true :=
  C6_configuration_predicate_fails_open _ _ (.errorf "context deadline exceeded") rfl

/-- C7: for every Gateway, `gatewayHasMatchingGatewayClass` returns false exactly
when `verifyGatewayClassSupport` returns an error that is `ErrUnsupportedGateway`
(by `errors.Is`); on success and on every other error it returns true. -/
theorem C7_gateway_predicate_fails_open (r : Reconciler) (gateway : Gateway) :
    (gatewayHasMatchingGatewayClass r (.Gateway gateway) = false ↔
      ∃ err, r.verifyGatewayClassSupport gateway = .error err ∧
        errorsIs err r.ErrUnsupportedGateway = true) ∧
    ((∀ err, r.verifyGatewayClassSupport gateway = .error err →
        errorsIs err r.ErrUnsupportedGateway = false) →
      gatewayHasMatchingGatewayClass r (.Gateway gateway) = true) := by
  unfold gatewayHasMatchingGatewayClass
  cases hv : r.verifyGatewayClassSupport gateway with
  | error e => simp [hv]
  | ok u => simp [hv]

/-- C7, witness: a store failure makes the predicate return true, an
unsupported-gateway error (also a wrapped one) makes it return false. -/
theorem C7_witness_store_error :
    gatewayHasMatchingGatewayClass
      (reconcilerWith (.ok []) (.ok [])
        (fun _ => .error (.errorf "context deadline exceeded")))
      (.Gateway ⟨"ns1", "a", ⟨"kong"⟩⟩) = true ∧
    gatewayHasMatchingGatewayClass
      (reconcilerWith (.ok []) (.ok [])
        (fun _ => .error (.wrap "gateway class not supported"
          (.sentinel "unsupported gateway"))))
      (.Gateway ⟨"ns1", "a", ⟨"kong"⟩⟩) = false :=
  ⟨(C7_gateway_predicate_fails_open _ _).2 (fun err h => by cases h; decide),
   (C7_gateway_predicate_fails_open _ _).1.mpr ⟨_, rfl, by decide⟩⟩

/-! ## Watch map functions -/

theorem mem_matchingGatewayClasses (p : GatewayClass → Bool) (classes : List GatewayClass)
    (init : List String) (x : String) :
    x ∈ classes.foldl (fun m k => if p k then k.Name :: m else m) init
      ↔ x ∈ init ∨ ∃ k ∈ classes, p k = true ∧ k.Name = x := by
  induction classes generalizing init with
  | nil => simp
  | cons k ks ih =>
      rw [List.foldl_cons, ih]
      by_cases hp : p k = true
      · simp only [hp, if_true, List.mem_cons, exists_eq_or_imp, true_and]
        constructor
        · rintro ((h | h) | h)
          · exact Or.inr (Or.inl h.symm)
          · exact Or.inl h
          · exact Or.inr (Or.inr h)
        · rintro (h | h | h)
          · exact Or.inl (Or.inr h)
          · exact Or.inl (Or.inl h.symm)
          · exact Or.inr h
      · simp [hp]

/-- C8: when both listings succeed, `listGatewaysForGatewayConfig` returns, in
listing order and once per Gateway, the keys of exactly the Gateways whose class
name is the name of a listed GatewayClass whose parametersRef is set, has the
operator's API group, the kind `GatewayConfiguration` and the configuration's
name. -/
theorem C8_two_hop_join (r : Reconciler) (gatewayConfig : GatewayConfiguration)
    (classes : List GatewayClass) (gateways : List Gateway)
    (hclasses : r.Client.ListGatewayClasses = .ok classes)
    (hgateways : r.Client.ListGateways = .ok gateways) :
    listGatewaysForGatewayConfig r (.GatewayConfiguration gatewayConfig)
      = (gateways.filter (fun g =>
          classes.any (fun k =>
            decide (k.Name = g.Spec.GatewayClassName) &&
              parametersRefMatches r.SchemeGroupVersionGroup gatewayConfig k))).map
          (fun g => ⟨⟨g.Namespace, g.Name⟩⟩) ∧
    ∀ k : GatewayClass,
      parametersRefMatches r.SchemeGroupVersionGroup gatewayConfig k = true ↔
        ∃ ref, k.Spec.ParametersRef = some ref ∧ ref.Group = r.SchemeGroupVersionGroup ∧
          ref.Kind = "GatewayConfiguration" ∧ ref.Name = gatewayConfig.Name := by
  constructor
  · simp only [listGatewaysForGatewayConfig, hclasses, hgateways]
    rw [foldl_append_filter, List.nil_append]
    have hreq : requestFor = fun g : Gateway => (⟨⟨g.Namespace, g.Name⟩⟩ : Request) := rfl
    rw [hreq]
    congr 1
    apply List.filter_congr
    intro g _
    rw [Bool.eq_iff_iff]
    simp only [decide_eq_true_eq, mem_matchingGatewayClasses, List.not_mem_nil, false_or,
      List.any_eq_true, Bool.and_eq_true]
    constructor
    · rintro ⟨k, hk, hp, hn⟩
      exact ⟨k, hk, hn, hp⟩
    · rintro ⟨k, hk, hn, hp⟩
      exact ⟨k, hk, hp, hn⟩
  · intro k
    unfold parametersRefMatches
    cases k.Spec.ParametersRef with
    | none => simp
    | some ref => simp [and_assoc]

/-- C8, witness: two classes, one of which names the configuration, and three
Gateways, two of which use that class. -/
theorem C8_witness_join :
    listGatewaysForGatewayConfig
      (reconcilerWith
        (.ok [⟨"kong", ⟨"konghq.com/gateway-operator",
                some ⟨"gateway-operator.konghq.com", "GatewayConfiguration", "cfg", none⟩⟩⟩,
              ⟨"other", ⟨"konghq.com/gateway-operator", none⟩⟩])
        (.ok [⟨"ns1", "a", ⟨"kong"⟩⟩, ⟨"ns1", "b", ⟨"other"⟩⟩, ⟨"ns2", "c", ⟨"kong"⟩⟩])
        (fun _ => .ok ()))
      (.GatewayConfiguration ⟨"default", "cfg", ⟨none, none⟩⟩)
      = [⟨⟨"ns1", "a"⟩⟩, ⟨⟨"ns2", "c"⟩⟩] :=
  (C8_two_hop_join _ ⟨"default", "cfg", ⟨none, none⟩⟩ _ _ rfl rfl).1.trans (by decide)

/-- C9: when listing Gateways succeeds, `listGatewaysForGatewayClass` returns, in
listing order and once per Gateway, the keys of exactly the listed Gateways
whose `spec.gatewayClassName` is the name of the class. -/
theorem C9_owners_of_class (r : Reconciler) (gatewayClass : GatewayClass)
    (gateways : List Gateway) (hgateways : r.Client.ListGateways = .ok gateways) :
    listGatewaysForGatewayClass r (.GatewayClass gatewayClass)
      = (gateways.filter (fun g =>
          decide (g.Spec.GatewayClassName = gatewayClass.Name))).map
          (fun g => ⟨⟨g.Namespace, g.Name⟩⟩) := by
  simp only [listGatewaysForGatewayClass, hgateways]
  rw [foldl_append_filter, List.nil_append]
  rfl

/-- C9, witness: three Gateways, two of which use the class `kong`. -/
theorem C9_witness_owners :
    listGatewaysForGatewayClass
      (reconcilerWith (.ok [])
        (.ok [⟨"ns1", "a", ⟨"kong"⟩⟩, ⟨"ns1", "b", ⟨"other"⟩⟩, ⟨"ns2", "c", ⟨"kong"⟩⟩])
        (fun _ => .ok ()))
      (.GatewayClass ⟨"kong", ⟨"konghq.com/gateway-operator", none⟩⟩)
      = [⟨⟨"ns1", "a"⟩⟩, ⟨⟨"ns2", "c"⟩⟩] :=
  (C9_owners_of_class _ ⟨"kong", ⟨"konghq.com/gateway-operator", none⟩⟩ _ rfl).trans
    (by decide)

/-- C10: `listGatewaysForGatewayConfig` returns no request when listing the
GatewayClass objects fails or when listing the Gateways fails, and
`listGatewaysForGatewayClass` returns no request when listing the Gateways
fails, whatever the object and the other listing. -/
theorem C10_read_failure_empty (r : Reconciler) (obj : Object) :
    ((∃ err, r.Client.ListGatewayClasses = .error err) →
      listGatewaysForGatewayConfig r obj = []) ∧
    ((∃ err, r.Client.ListGateways = .error err) →
      listGatewaysForGatewayConfig r obj = []) ∧
    ((∃ err, r.Client.ListGateways = .error err) →
      listGatewaysForGatewayClass r obj = []) := by
  refine ⟨?_, ?_, ?_⟩
  · rintro ⟨err, h⟩
    cases obj <;> simp [listGatewaysForGatewayConfig, h]
  · rintro ⟨err, h⟩
    cases obj <;> simp only [listGatewaysForGatewayConfig, h]
    cases r.Client.ListGatewayClasses <;> rfl
  · rintro ⟨err, h⟩
    cases obj <;> simp [listGatewaysForGatewayClass, h]

/-- C10, witness: the class listing succeeds with a class that names the
configuration (the intermediate set is not empty) and the Gateway listing fails. -/
theorem C10_witness_gateway_list_error :
    listGatewaysForGatewayConfig
      (reconcilerWith
        (.ok [⟨"kong", ⟨"konghq.com/gateway-operator",
                some ⟨"gateway-operator.konghq.com", "GatewayConfiguration", "cfg", none⟩⟩⟩])
        (.error (.errorf "context deadline exceeded")) (fun _ => .ok ()))
      (.GatewayConfiguration ⟨"default", "cfg", ⟨none, none⟩⟩) = [] :=
  (C10_read_failure_empty _ _).2.1 ⟨.errorf "context deadline exceeded", rfl⟩

/-! ## Watch predicates: the kind of the argument -/

/-- C11: `gatewayClassMatchesController` returns true exactly when its argument
is a GatewayClass whose `spec.controllerName` is equal, as a string, to the name
of this controller; for every other object it returns false. -/
theorem C11_class_predicate_exact_name (r : Reconciler) (obj : Object) :
    (gatewayClassMatchesController r obj = true ↔
      ∃ gatewayClass, obj = .GatewayClass gatewayClass ∧
        gatewayClass.Spec.ControllerName = r.ControllerName) ∧
    ((¬ ∃ gatewayClass, obj = .GatewayClass gatewayClass ∧
        gatewayClass.Spec.ControllerName = r.ControllerName) →
      gatewayClassMatchesController r obj = false) := by
  cases obj <;> simp [gatewayClassMatchesController]

/-- C11, witness: the controller's own name matches; a name in another case, a
name with a prefix added and a name with a blank added do not. -/
theorem C11_witness_names :
    gatewayClassMatchesController (reconcilerWith (.ok []) (.ok []) (fun _ => .ok ()))
      (.GatewayClass ⟨"kong", ⟨"konghq.com/gateway-operator", none⟩⟩) = true ∧
    gatewayClassMatchesController (reconcilerWith (.ok []) (.ok []) (fun _ => .ok ()))
      (.GatewayClass ⟨"kong", ⟨"KongHQ.com/gateway-operator", none⟩⟩) = false ∧
    gatewayClassMatchesController (reconcilerWith (.ok []) (.ok []) (fun _ => .ok ()))
      (.GatewayClass ⟨"kong", ⟨"konghq.com/gateway-operator-2", none⟩⟩) = false ∧
    gatewayClassMatchesController (reconcilerWith (.ok []) (.ok []) (fun _ => .ok ()))
      (.GatewayClass ⟨"kong", ⟨"konghq.com/gateway-operator ", none⟩⟩) = false :=
  ⟨(C11_class_predicate_exact_name _ _).1.mpr ⟨_, rfl, rfl⟩,
   (C11_class_predicate_exact_name _ _).2
     (by rintro ⟨gc, h, hn⟩; cases h; exact absurd hn (by decide)),
   (C11_class_predicate_exact_name _ _).2
     (by rintro ⟨gc, h, hn⟩; cases h; exact absurd hn (by decide)),
   (C11_class_predicate_exact_name _ _).2
     (by rintro ⟨gc, h, hn⟩; cases h; exact absurd hn (by decide))⟩

/-- C12, counterexample: `gatewayConfigurationMatchesController` makes no type
assertion: handed a Gateway, it returns true when a listed class belongs to this
controller, and also when the listing fails. -/
theorem C12_counterexample_configuration_predicate :
    gatewayConfigurationMatchesController
      (reconcilerWith (.ok [⟨"kong", ⟨"konghq.com/gateway-operator", none⟩⟩]) (.ok [])
        (fun _ => .ok ()))
      (.Gateway ⟨"ns1", "a", ⟨"kong"⟩⟩) = true ∧
    gatewayConfigurationMatchesController
      (reconcilerWith (.error (.errorf "context deadline exceeded")) (.ok [])
        (fun _ => .ok ()))
      (.Other "*corev1.Secret") = true := by
  constructor <;> decide

/-- C12, amended: the two predicates that assert the type of their argument fail
closed: `gatewayHasMatchingGatewayClass` returns false for every object that is
not a Gateway and `gatewayClassMatchesController` returns false for every object
that is not a GatewayClass, in every store state. -/
theorem C12_asserting_predicates_fail_closed (r : Reconciler) (obj : Object) :
    ((∀ gateway, obj ≠ .Gateway gateway) → gatewayHasMatchingGatewayClass r obj = false) ∧
    ((∀ gatewayClass, obj ≠ .GatewayClass gatewayClass) →
      gatewayClassMatchesController r obj = false) := by
  cases obj <;> simp [gatewayHasMatchingGatewayClass, gatewayClassMatchesController]

/-- C12, witness: a GatewayConfiguration handed to the Gateway predicate and to
the GatewayClass predicate, with a store that lists a class of this controller. -/
theorem C12_witness_wrong_kind :
    gatewayHasMatchingGatewayClass
      (reconcilerWith (.ok [⟨"kong", ⟨"konghq.com/gateway-operator", none⟩⟩]) (.ok [])
        (fun _ => .ok ()))
      (.GatewayConfiguration ⟨"default", "cfg", ⟨none, none⟩⟩) = false ∧
    gatewayClassMatchesController
      (reconcilerWith (.ok [⟨"kong", ⟨"konghq.com/gateway-operator", none⟩⟩]) (.ok [])
        (fun _ => .ok ()))
      (.GatewayConfiguration ⟨"default", "cfg", ⟨none, none⟩⟩) = false :=
  ⟨(C12_asserting_predicates_fail_closed _ _).1 (by intro g h; cases h),
   (C12_asserting_predicates_fail_closed _ _).2 (by intro g h; cases h)⟩

/-! ## Defaults of a GatewayConfiguration -/

/-- C15: after `setDataPlaneGatewayConfigDefaults` the data-plane options are not
nil: the empty options when they were unset, the same value when they were set;
no other field of the configuration changes, and a second call changes nothing. -/
theorem C15_dataplane_options_never_nil (gatewayConfig : GatewayConfiguration) :
    (setDataPlaneGatewayConfigDefaults gatewayConfig).Spec.DataPlaneOptions ≠ none ∧
    (gatewayConfig.Spec.DataPlaneOptions = none →
      (setDataPlaneGatewayConfigDefaults gatewayConfig).Spec.DataPlaneOptions = some ⟨[]⟩) ∧
    (∀ options, gatewayConfig.Spec.DataPlaneOptions = some options →
      setDataPlaneGatewayConfigDefaults gatewayConfig = gatewayConfig) ∧
    (setDataPlaneGatewayConfigDefaults gatewayConfig).Namespace = gatewayConfig.Namespace ∧
    (setDataPlaneGatewayConfigDefaults gatewayConfig).Name = gatewayConfig.Name ∧
    (setDataPlaneGatewayConfigDefaults gatewayConfig).Spec.ControlPlaneOptions
      = gatewayConfig.Spec.ControlPlaneOptions ∧
    setDataPlaneGatewayConfigDefaults (setDataPlaneGatewayConfigDefaults gatewayConfig)
      = setDataPlaneGatewayConfigDefaults gatewayConfig := by
  unfold setDataPlaneGatewayConfigDefaults
  cases h : gatewayConfig.Spec.DataPlaneOptions with
  | none => simp
  | some o => simp [h]

/-- C15, witness: a configuration without data-plane options and one with. -/
theorem C15_witness_unset_and_set :
    setDataPlaneGatewayConfigDefaults ⟨"default", "cfg", ⟨none, none⟩⟩
      = ⟨"default", "cfg", ⟨some ⟨[]⟩, none⟩⟩ ∧
    setDataPlaneGatewayConfigDefaults
        ⟨"default", "cfg", ⟨some ⟨[("deployment.replicas", "2")]⟩, none⟩⟩
      = ⟨"default", "cfg", ⟨some ⟨[("deployment.replicas", "2")]⟩, none⟩⟩ :=
  ⟨by decide,
   (C15_dataplane_options_never_nil
      ⟨"default", "cfg", ⟨some ⟨[("deployment.replicas", "2")]⟩, none⟩⟩).2.2.1 _ rfl⟩

theorem setDefaultsCall_containers (E : DefaultsEnv) (gateway : Gateway)
    (gatewayConfig : GatewayConfiguration) (dataplaneName ingress admin name : String) :
    (setDefaultsCall E gateway gatewayConfig dataplaneName ingress admin name).spec.Deployment.PodTemplateSpec
      = some ⟨⟨
          match GetPodContainerByName ⟨suppliedContainers gatewayConfig⟩
              ControlPlaneControllerContainerName with
          | none => suppliedContainers gatewayConfig ++
              [E.GenerateControlPlaneContainer E.DefaultControlPlaneImage]
          | some _ => suppliedContainers gatewayConfig⟩⟩ := by
  unfold setDefaultsCall suppliedContainers
  cases hO : gatewayConfig.Spec.ControlPlaneOptions with
  | none => simp [GetPodContainerByName]
  | some o =>
      cases hT : o.Deployment.PodTemplateSpec with
      | none => simp [hT, GetPodContainerByName]
      | some t =>
          simp only [hT]
          cases hC : GetPodContainerByName t.Spec ControlPlaneControllerContainerName with
          | none => simp [hC]
          | some c => simp [hC]

theorem setDefaultsCall_dontOverride (E : DefaultsEnv) (gateway : Gateway)
    (gatewayConfig : GatewayConfiguration) (dataplaneName ingress admin name : String) :
    (setDefaultsCall E gateway gatewayConfig dataplaneName ingress admin name).dontOverride
      = (controllerContainer E gatewayConfig).Env.foldl (fun m env => env.Name :: m) [] := by
  unfold setDefaultsCall controllerContainer suppliedContainers
  cases hO : gatewayConfig.Spec.ControlPlaneOptions with
  | none => simp [GetPodContainerByName]
  | some o =>
      cases hT : o.Deployment.PodTemplateSpec with
      | none => simp [hT, GetPodContainerByName]
      | some t =>
          simp only [hT]
          cases hC : GetPodContainerByName t.Spec ControlPlaneControllerContainerName with
          | none => simp [hC]
          | some c => simp [hC]

theorem setDefaultsCall_dataPlane (E : DefaultsEnv) (gateway : Gateway)
    (gatewayConfig : GatewayConfiguration) (dataplaneName ingress admin name : String) :
    (setDefaultsCall E gateway gatewayConfig dataplaneName ingress admin name).spec.DataPlane
      = if suppliedDataPlane gatewayConfig = none ∨ suppliedDataPlane gatewayConfig = some ""
        then some dataplaneName else suppliedDataPlane gatewayConfig := by
  unfold setDefaultsCall suppliedDataPlane
  cases hO : gatewayConfig.Spec.ControlPlaneOptions with
  | none =>
      simp only []
      split <;> simp
  | some o =>
      simp only []
      split <;> rfl

theorem mem_foldl_names (env : List EnvVar) (init : List String) (name : String) :
    name ∈ env.foldl (fun m e => e.Name :: m) init
      ↔ name ∈ init ∨ ∃ e ∈ env, e.Name = name := by
  induction env generalizing init with
  | nil => simp
  | cons e es ih =>
      rw [List.foldl_cons, ih]
      simp only [List.mem_cons, exists_eq_or_imp]
      constructor
      · rintro ((h | h) | h)
        · exact Or.inr (Or.inl h.symm)
        · exact Or.inl h
        · exact Or.inr (Or.inr h)
      · rintro (h | h | h)
        · exact Or.inl (Or.inr h)
        · exact Or.inl (Or.inl h.symm)
        · exact Or.inr h

theorem getPodContainerByName_eq_none (containers : List Container) (name : String) :
    GetPodContainerByName ⟨containers⟩ name = none ↔ ∀ c ∈ containers, c.Name ≠ name := by
  simp [GetPodContainerByName, List.find?_eq_none]

/-- C14: when the supplied control-plane pod template (empty when nil) has no
container named "controller", the containers handed to the defaulting step are
the supplied ones, in order, followed by the one container generated from the
default control-plane image; when it has one, they are the supplied containers
as they were. -/
theorem C14_controller_container_synthesis (E : DefaultsEnv) (gateway : Gateway)
    (gatewayConfig : GatewayConfiguration)
    (dataplaneName dataplaneIngressServiceName dataplaneAdminServiceName
      controlPlaneName : String) :
    ((∀ c ∈ suppliedContainers gatewayConfig, c.Name ≠ "controller") →
      (setDefaultsCall E gateway gatewayConfig dataplaneName dataplaneIngressServiceName
          dataplaneAdminServiceName controlPlaneName).spec.Deployment.PodTemplateSpec
        = some ⟨⟨suppliedContainers gatewayConfig ++
            [E.GenerateControlPlaneContainer E.DefaultControlPlaneImage]⟩⟩) ∧
    ((∃ c ∈ suppliedContainers gatewayConfig, c.Name = "controller") →
      (setDefaultsCall E gateway gatewayConfig dataplaneName dataplaneIngressServiceName
          dataplaneAdminServiceName controlPlaneName).spec.Deployment.PodTemplateSpec
        = some ⟨⟨suppliedContainers gatewayConfig⟩⟩) := by
  rw [setDefaultsCall_containers]
  constructor
  · intro h
    have hn := (getPodContainerByName_eq_none (suppliedContainers gatewayConfig)
      ControlPlaneControllerContainerName).mpr h
    rw [hn]
  · rintro ⟨c, hc, hname⟩
    cases hg : GetPodContainerByName ⟨suppliedContainers gatewayConfig⟩
        ControlPlaneControllerContainerName with
    | none =>
        exact absurd hname
          ((getPodContainerByName_eq_none _ ControlPlaneControllerContainerName).mp hg c hc)
    | some c2 => rfl

/-- C14, witness: a pod template with a sidecar only gets the generated
container appended; one with a "controller" container is left as it was. -/
theorem C14_witness_sidecar_only :
    (setDefaultsCall sampleDefaultsEnv ⟨"ns1", "gw", ⟨"kong"⟩⟩
        ⟨"default", "cfg",
          ⟨none, some ⟨⟨some ⟨⟨[⟨"sidecar", "busybox", []⟩]⟩⟩⟩, none⟩⟩⟩
        "dp" "dp-ingress" "dp-admin" "cp").spec.Deployment.PodTemplateSpec
      = some ⟨⟨[⟨"sidecar", "busybox", []⟩,
          ⟨"controller", "kong/kubernetes-ingress-controller:2.6.0", []⟩]⟩⟩ ∧
    (setDefaultsCall sampleDefaultsEnv ⟨"ns1", "gw", ⟨"kong"⟩⟩
        ⟨"default", "cfg",
          ⟨none, some ⟨⟨some ⟨⟨[⟨"sidecar", "busybox", []⟩,
            ⟨"controller", "kic:dev", [⟨"TEST_ENV", "test"⟩]⟩]⟩⟩⟩, none⟩⟩⟩
        "dp" "dp-ingress" "dp-admin" "cp").spec.Deployment.PodTemplateSpec
      = some ⟨⟨[⟨"sidecar", "busybox", []⟩,
          ⟨"controller", "kic:dev", [⟨"TEST_ENV", "test"⟩]⟩]⟩⟩ :=
  ⟨(C14_controller_container_synthesis sampleDefaultsEnv _ _ _ _ _ _).1 (by decide),
   (C14_controller_container_synthesis sampleDefaultsEnv _ _ _ _ _ _).2 (by decide)⟩

/-- C16: the options handed to the defaulting step carry `dataplaneName` as
DataPlane when the supplied reference was nil or empty, and the supplied value
otherwise; when the defaulting steps leave the field alone, so do the options
after the call, which are never nil. -/
theorem C16_dataplane_reference_kept (E : DefaultsEnv) (gateway : Gateway)
    (gatewayConfig : GatewayConfiguration)
    (dataplaneName dataplaneIngressServiceName dataplaneAdminServiceName
      controlPlaneName : String)
    (hset : ∀ spec dontOverride args,
      (E.SetDefaults spec dontOverride args).DataPlane = spec.DataPlane)
    (hlast : ∀ spec, (E.setControlPlaneOptionsDefaults spec).DataPlane = spec.DataPlane) :
    (setDefaultsCall E gateway gatewayConfig dataplaneName dataplaneIngressServiceName
        dataplaneAdminServiceName controlPlaneName).spec.DataPlane
      = (if suppliedDataPlane gatewayConfig = none ∨ suppliedDataPlane gatewayConfig = some ""
          then some dataplaneName else suppliedDataPlane gatewayConfig) ∧
    ∃ options,
      (setControlPlaneGatewayConfigDefaults E gateway gatewayConfig dataplaneName
          dataplaneIngressServiceName dataplaneAdminServiceName
          controlPlaneName).Spec.ControlPlaneOptions = some options ∧
      options.DataPlane
        = (if suppliedDataPlane gatewayConfig = none ∨
              suppliedDataPlane gatewayConfig = some ""
            then some dataplaneName else suppliedDataPlane gatewayConfig) := by
  refine ⟨setDefaultsCall_dataPlane E gateway gatewayConfig _ _ _ _, _, rfl, ?_⟩
  rw [hlast, hset, setDefaultsCall_dataPlane]

theorem onControllerEnv_dataPlane (f : List EnvVar → List EnvVar)
    (options : ControlPlaneOptions) :
    (onControllerEnv f options).DataPlane = options.DataPlane := rfl

/-- C16, witness: a nil reference, an empty reference and a reference set by
the user. -/
theorem C16_witness_references :
    (∃ options,
      (setControlPlaneGatewayConfigDefaults sampleDefaultsEnv ⟨"ns1", "gw", ⟨"kong"⟩⟩
          ⟨"default", "cfg", ⟨none, none⟩⟩ "dp" "dp-ingress" "dp-admin"
          "cp").Spec.ControlPlaneOptions = some options ∧
      options.DataPlane = some "dp") ∧
    (∃ options,
      (setControlPlaneGatewayConfigDefaults sampleDefaultsEnv ⟨"ns1", "gw", ⟨"kong"⟩⟩
          ⟨"default", "cfg", ⟨none, some ⟨⟨none⟩, some ""⟩⟩⟩ "dp" "dp-ingress" "dp-admin"
          "cp").Spec.ControlPlaneOptions = some options ∧
      options.DataPlane = some "dp") ∧
    (∃ options,
      (setControlPlaneGatewayConfigDefaults sampleDefaultsEnv ⟨"ns1", "gw", ⟨"kong"⟩⟩
          ⟨"default", "cfg", ⟨none, some ⟨⟨none⟩, some "mine"⟩⟩⟩ "dp" "dp-ingress" "dp-admin"
          "cp").Spec.ControlPlaneOptions = some options ∧
      options.DataPlane = some "mine") :=
  ⟨(C16_dataplane_reference_kept sampleDefaultsEnv _ _ _ _ _ _
      (fun _ _ _ => rfl) (fun _ => rfl)).2,
   (C16_dataplane_reference_kept sampleDefaultsEnv _ _ _ _ _ _
      (fun _ _ _ => rfl) (fun _ => rfl)).2,
   (C16_dataplane_reference_kept sampleDefaultsEnv _ _ _ _ _ _
      (fun _ _ _ => rfl) (fun _ => rfl)).2⟩

theorem controllerEnv_setDefaultsCall_of_supplied (E : DefaultsEnv) (gateway : Gateway)
    (gatewayConfig : GatewayConfiguration) (dataplaneName ingress admin name : String)
    (c : Container)
    (hc : GetPodContainerByName ⟨suppliedContainers gatewayConfig⟩
      ControlPlaneControllerContainerName = some c) :
    controllerEnv (setDefaultsCall E gateway gatewayConfig dataplaneName ingress admin
      name).spec = c.Env := by
  unfold controllerEnv
  rw [setDefaultsCall_containers]
  simp only [hc]

theorem controllerEnv_onControllerEnv (f : List EnvVar → List EnvVar)
    (options : ControlPlaneOptions) :
    controllerEnv (onControllerEnv f options)
      = match options.Deployment.PodTemplateSpec with
        | none => []
        | some t =>
            match GetPodContainerByName t.Spec ControlPlaneControllerContainerName with
            | none => []
            | some c => f c.Env := by
  unfold controllerEnv onControllerEnv
  cases hT : options.Deployment.PodTemplateSpec with
  | none => rfl
  | some t =>
      simp only [Option.map_some', GetPodContainerByName, List.find?_map]
      have hp : ((fun c : Container => decide (c.Name = ControlPlaneControllerContainerName)) ∘
          fun c : Container =>
            if c.Name = ControlPlaneControllerContainerName then
              (⟨c.Name, c.Image, f c.Env⟩ : Container)
            else c)
          = fun c : Container => decide (c.Name = ControlPlaneControllerContainerName) := by
        funext c
        by_cases h : c.Name = ControlPlaneControllerContainerName <;> simp [h]
      rw [hp]
      cases hF : t.Spec.Containers.find?
          (fun c => decide (c.Name = ControlPlaneControllerContainerName)) with
      | none => rfl
      | some c =>
          have hname : c.Name = ControlPlaneControllerContainerName := by
            simpa using List.find?_some hF
          simp [hname]

theorem injectDefaults_honours (defaults : DefaultsArgs → List EnvVar) :
    HonoursDontOverride (injectDefaults defaults) := by
  intro spec dontOverride args name hname
  unfold injectDefaults
  rw [controllerEnv_onControllerEnv]
  unfold controllerEnv
  cases hT : spec.Deployment.PodTemplateSpec with
  | none => rfl
  | some t =>
      simp only []
      cases hC : GetPodContainerByName t.Spec ControlPlaneControllerContainerName with
      | none => rfl
      | some c =>
          simp only [EnvValueByName, List.find?_append]
          have hnone : ((defaults args).filter
              (fun d => decide (d.Name ∉ dontOverride))).find?
              (fun e => decide (e.Name = name)) = none := by
            rw [List.find?_eq_none]
            intro e he
            have hmem := (List.mem_filter.mp he).2
            simp only [decide_eq_true_eq] at hmem ⊢
            intro heq
            exact hmem (heq ▸ hname)
          rw [hnone, Option.or_none]

/-- C13: the do-not-override set handed to the defaulting step is exactly the
set of names of the variables on the "controller" container (the user's when the
supplied pod template has one, otherwise the generated one); and when the
defaulting step honours that set and the last step keeps the controller's
variables, every name the user set on that container has the user's value after
the call. -/
theorem C13_user_environment_wins (E : DefaultsEnv) (gateway : Gateway)
    (gatewayConfig : GatewayConfiguration)
    (dataplaneName dataplaneIngressServiceName dataplaneAdminServiceName
      controlPlaneName : String)
    (hset : HonoursDontOverride E.SetDefaults)
    (hlast : KeepsControllerEnv E.setControlPlaneOptionsDefaults) :
    (∀ name,
      name ∈ (setDefaultsCall E gateway gatewayConfig dataplaneName
          dataplaneIngressServiceName dataplaneAdminServiceName controlPlaneName).dontOverride
        ↔ ∃ env ∈ (controllerContainer E gatewayConfig).Env, env.Name = name) ∧
    (∀ c, GetPodContainerByName ⟨suppliedContainers gatewayConfig⟩ "controller" = some c →
      ∀ env ∈ c.Env, ∃ options,
        (setControlPlaneGatewayConfigDefaults E gateway gatewayConfig dataplaneName
            dataplaneIngressServiceName dataplaneAdminServiceName
            controlPlaneName).Spec.ControlPlaneOptions = some options ∧
        EnvValueByName (controllerEnv options) env.Name = EnvValueByName c.Env env.Name) := by
  constructor
  · intro name
    rw [setDefaultsCall_dontOverride, mem_foldl_names]
    simp
  · intro c hc env henv
    refine ⟨_, rfl, ?_⟩
    have hmem : env.Name ∈ (setDefaultsCall E gateway gatewayConfig dataplaneName
        dataplaneIngressServiceName dataplaneAdminServiceName
        controlPlaneName).dontOverride := by
      rw [setDefaultsCall_dontOverride, mem_foldl_names]
      refine Or.inr ⟨env, ?_, rfl⟩
      unfold controllerContainer
      rw [show GetPodContainerByName ⟨suppliedContainers gatewayConfig⟩
        ControlPlaneControllerContainerName = some c from hc]
      exact henv
    rw [hlast, hset _ _ _ _ hmem,
      controllerEnv_setDefaultsCall_of_supplied E gateway gatewayConfig _ _ _ _ c hc]

/-- C13, witness: the user's `TEST_ENV=test` on the "controller" container keeps
its value although the defaulting step has a default for `TEST_ENV`, and the
publish service, which the user did not set, is injected. -/
theorem C13_witness_test_env :
    (∃ options,
      (setControlPlaneGatewayConfigDefaults sampleDefaultsEnv ⟨"ns1", "gw", ⟨"kong"⟩⟩
          ⟨"default", "cfg",
            ⟨none, some ⟨⟨some ⟨⟨[⟨"controller", "kic:dev", [⟨"TEST_ENV", "test"⟩]⟩]⟩⟩⟩,
              none⟩⟩⟩
          "dp" "dp-ingress" "dp-admin" "cp").Spec.ControlPlaneOptions = some options ∧
      EnvValueByName (controllerEnv options) "TEST_ENV" = some "test") ∧
    (setControlPlaneGatewayConfigDefaults sampleDefaultsEnv ⟨"ns1", "gw", ⟨"kong"⟩⟩
        ⟨"default", "cfg",
          ⟨none, some ⟨⟨some ⟨⟨[⟨"controller", "kic:dev", [⟨"TEST_ENV", "test"⟩]⟩]⟩⟩⟩,
            none⟩⟩⟩
        "dp" "dp-ingress" "dp-admin" "cp").Spec.ControlPlaneOptions
      = some ⟨⟨some ⟨⟨[⟨"controller", "kic:dev",
          [⟨"TEST_ENV", "test"⟩, ⟨"CONTROLLER_PUBLISH_SERVICE", "ns1/dp-ingress"⟩]⟩]⟩⟩⟩,
          some "dp"⟩ :=
  ⟨(C13_user_environment_wins sampleDefaultsEnv ⟨"ns1", "gw", ⟨"kong"⟩⟩
      ⟨"default", "cfg",
        ⟨none, some ⟨⟨some ⟨⟨[⟨"controller", "kic:dev", [⟨"TEST_ENV", "test"⟩]⟩]⟩⟩⟩,
          none⟩⟩⟩
      "dp" "dp-ingress" "dp-admin" "cp" (injectDefaults_honours sampleDefaults)
      (fun _ _ => rfl)).2 ⟨"controller", "kic:dev", [⟨"TEST_ENV", "test"⟩]⟩ (by decide)
      ⟨"TEST_ENV", "test"⟩ (by decide),
   by decide⟩

/-! ## Resource requirements -/

theorem number_eq_scaledTo (q : Quantity) (s : Int) (h : s ≤ q.scale) :
    q.number = (q.scaledTo s : ℚ) * (10 : ℚ) ^ s := by
  unfold Quantity.number Quantity.scaledTo
  have hs : q.scale = ((q.scale - s).toNat : Int) + s := by
    rw [Int.toNat_of_nonneg (by omega)]
    ring
  push_cast
  conv_lhs => rw [hs]
  rw [zpow_add₀ (by norm_num : (10 : ℚ) ≠ 0), zpow_natCast]
  ring

theorem equal_iff_number_eq (q v : Quantity) : q.Equal v = true ↔ q.number = v.number := by
  rw [number_eq_scaledTo q (min q.scale v.scale) (min_le_left _ _),
    number_eq_scaledTo v (min q.scale v.scale) (min_le_right _ _)]
  have h10 : (10 : ℚ) ^ (min q.scale v.scale) ≠ 0 := zpow_ne_zero _ (by norm_num)
  rw [mul_left_inj' h10, Int.cast_inj]
  unfold Quantity.Equal Quantity.Cmp
  constructor
  · intro h
    have hc : compare (q.scaledTo (min q.scale v.scale)) (v.scaledTo (min q.scale v.scale))
        = Ordering.eq := by
      revert h
      cases compare (q.scaledTo (min q.scale v.scale)) (v.scaledTo (min q.scale v.scale))
        <;> first | (intro _; rfl) | (intro h; exact absurd h (by decide))
    exact compare_eq_iff_eq.mp hc
  · intro h
    rw [h, compare_eq_iff_eq.mpr rfl]
    rfl

theorem equal_self (q : Quantity) : q.Equal q = true :=
  (equal_iff_number_eq q q).mpr rfl

/-- C17: for `a` and a non-nil `b` with as many claims, limit entries and request
entries, whose CPU and memory limits and requests stand for the same numbers,
`ResourceRequirementsEqual` is true, however the quantities are written. -/
theorem C17_tolerant_of_textual_form (a b : ResourceRequirements)
    (hclaims : a.Claims.length = b.Claims.length)
    (hlimits : a.Limits.length = b.Limits.length)
    (hrequests : a.Requests.length = b.Requests.length)
    (hlc : (ResourceList.Cpu a.Limits).number = (ResourceList.Cpu b.Limits).number)
    (hlm : (ResourceList.Memory a.Limits).number = (ResourceList.Memory b.Limits).number)
    (hrc : (ResourceList.Cpu a.Requests).number = (ResourceList.Cpu b.Requests).number)
    (hrm : (ResourceList.Memory a.Requests).number
      = (ResourceList.Memory b.Requests).number) :
    ResourceRequirementsEqual a (some b) = true := by
  simp [ResourceRequirementsEqual, hclaims, hlimits, hrequests,
    (equal_iff_number_eq _ _).mpr hlc, (equal_iff_number_eq _ _).mpr hlm,
    (equal_iff_number_eq _ _).mpr hrc, (equal_iff_number_eq _ _).mpr hrm]

/-- C17, witness: CPU `1` against `1000m` and memory `1Gi` against `1024Mi`. -/
theorem C17_witness_cpu_1_1000m :
    ResourceRequirementsEqual
      ⟨[("cpu", ⟨1, 0, "DecimalSI"⟩), ("memory", ⟨1073741824, 0, "BinarySI"⟩)],
        [("cpu", ⟨1, 0, "DecimalSI"⟩)], []⟩
      (some ⟨[("cpu", ⟨1000, -3, "DecimalSI"⟩), ("memory", ⟨1073741824, 0, "BinarySI"⟩)],
        [("cpu", ⟨1000, -3, "DecimalSI"⟩)], []⟩) = true ∧
    Quantity.Equal ⟨1, 0, "DecimalSI"⟩ ⟨1000, -3, "DecimalSI"⟩ = true :=
  ⟨C17_tolerant_of_textual_form _ _ rfl rfl rfl
      ((equal_iff_number_eq _ _).mp (by decide)) rfl
      ((equal_iff_number_eq _ _).mp (by decide)) rfl,
   by decide⟩

/-- C18: `ResourceRequirementsEqual(r, &r)` is true for every `r`. -/
theorem C18_equal_to_itself (r : ResourceRequirements) :
    ResourceRequirementsEqual r (some r) = true := by
  simp [ResourceRequirementsEqual, equal_self]

/-! ## Status conditions -/

theorem mem_SetCondition (condition : Condition) (conditions : List Condition) :
    condition ∈ SetCondition condition conditions := by
  unfold SetCondition
  split
  · rename_i h
    obtain ⟨c, hc, ht⟩ := List.any_eq_true.mp h
    simp only [decide_eq_true_eq] at ht
    exact List.mem_map.mpr ⟨c, hc, by simp [ht]⟩
  · simp

theorem eq_of_mem_SetCondition (condition c : Condition) (conditions : List Condition)
    (hc : c ∈ SetCondition condition conditions)
    (ht : c.ConditionType = condition.ConditionType) : c = condition := by
  unfold SetCondition at hc
  split at hc
  · obtain ⟨d, _, hd⟩ := List.mem_map.mp hc
    by_cases hdt : d.ConditionType = condition.ConditionType
    · simpa [hdt] using hd.symm
    · simp only [hdt, if_false] at hd
      exact absurd (hd ▸ ht) hdt
  · rename_i h
    rcases List.mem_append.mp hc with hmem | hmem
    · exact absurd (List.any_eq_true.mpr ⟨c, hmem, by simpa using ht⟩) h
    · simpa using hmem

/-- C19: the condition `markAsProvisioned` sets on a DataPlane or a ControlPlane
has the Provisioned type of the resource's kind, status True, reason PodsReady,
the message "pods for all Deployments are ready" and the resource's current
generation as observedGeneration; after the call it is the resource's one
condition of that type, and the generation is as before. -/
theorem C19_provisioned_stamps_generation (K : ConditionConsts)
    (resource : ProvisionedResource) :
    provisionedCondition K resource
      = ⟨match resource with
          | .DataPlane _ => K.DataPlaneConditionTypeProvisioned
          | .ControlPlane _ => K.ControlPlaneConditionTypeProvisioned,
         "True",
         match resource with
          | .DataPlane _ => K.DataPlaneConditionReasonPodsReady
          | .ControlPlane _ => K.ControlPlaneConditionReasonPodsReady,
         "pods for all Deployments are ready", resource.generation⟩ ∧
    provisionedCondition K resource ∈ (markAsProvisioned K resource).conditions ∧
    (∀ c ∈ (markAsProvisioned K resource).conditions,
      c.ConditionType = (provisionedCondition K resource).ConditionType →
        c = provisionedCondition K resource) ∧
    (markAsProvisioned K resource).generation = resource.generation := by
  cases resource with
  | DataPlane d =>
      refine ⟨rfl, mem_SetCondition _ _, ?_, rfl⟩
      intro c hc ht
      exact eq_of_mem_SetCondition _ c _ hc ht
  | ControlPlane d =>
      refine ⟨rfl, mem_SetCondition _ _, ?_, rfl⟩
      intro c hc ht
      exact eq_of_mem_SetCondition _ c _ hc ht

/-- C19, witness: a DataPlane at generation 3 whose Provisioned condition was
stamped at generation 2. -/
theorem C19_witness_dataplane :
    markAsProvisioned ⟨"Provisioned", "PodsReady", "Provisioned", "PodsReady"⟩
      (.DataPlane ⟨3, [⟨"Ready", "False", "Waiting", "", 2⟩,
        ⟨"Provisioned", "False", "PodsNotReady", "", 2⟩]⟩)
      = .DataPlane ⟨3, [⟨"Ready", "False", "Waiting", "", 2⟩,
        ⟨"Provisioned", "True", "PodsReady", "pods for all Deployments are ready", 3⟩]⟩ ∧
    provisionedCondition ⟨"Provisioned", "PodsReady", "Provisioned", "PodsReady"⟩
      (.ControlPlane ⟨7, []⟩)
      = ⟨"Provisioned", "True", "PodsReady", "pods for all Deployments are ready", 7⟩ :=
  ⟨by decide,
   (C19_provisioned_stamps_generation
      ⟨"Provisioned", "PodsReady", "Provisioned", "PodsReady"⟩ (.ControlPlane ⟨7, []⟩)).1⟩

/-! ## The range checks are disjoint -/

theorem atLeast_minor_anti (v : Version) (a b b2 : Nat) (hb : b ≤ b2)
    (h : v.atLeast (a, b2) = true) : v.atLeast (a, b) = true := by
  cases hv : v.atLeast (a, b) with
  | true => rfl
  | false => rw [atLeast_minor_mono v a b b2 hb hv] at h; exact absurd h (by decide)

theorem rangeChecks_of_prerelease (v : Version) (hpre : v.pre ≠ "") :
    rangeChecks v = [false, false, false, false, false] := by
  simp [rangeChecks, check_of_prerelease v hpre, constraint_ge2_1_lt2_2,
    constraint_ge2_2_lt2_3, constraint_ge2_3_lt2_4, constraint_ge2_4_lt2_6, constraint_ge2_6]

theorem rangeChecks_of_release (v : Version) (hpre : v.pre = "") :
    rangeChecks v =
      [v.atLeast (2, 1) && !v.atLeast (2, 2), v.atLeast (2, 2) && !v.atLeast (2, 3),
       v.atLeast (2, 3) && !v.atLeast (2, 4), v.atLeast (2, 4) && !v.atLeast (2, 6),
       v.atLeast (2, 6)] := by
  simp only [rangeChecks, constraint_ge2_1_lt2_2, constraint_ge2_2_lt2_3,
    constraint_ge2_3_lt2_4, constraint_ge2_4_lt2_6, constraint_ge2_6,
    check_bounded_of_release v hpre, check_unbounded_of_release v hpre]

/-- C20, counterexample: the version 2.5.0-rc.1 is not below 2.1.0 and none of
the five range checks holds for it. -/
theorem C20_counterexample_prerelease_gap :
    NewVersion "2.5.0-rc.1" = .ok ⟨2, 5, 0, "rc.1", "", "2.5.0-rc.1"⟩ ∧
    Version.atLeast ⟨2, 5, 0, "rc.1", "", "2.5.0-rc.1"⟩ (2, 1) = true ∧
    (rangeChecks ⟨2, 5, 0, "rc.1", "", "2.5.0-rc.1"⟩).count true = 0 := by
  refine ⟨by rfl, by decide, by decide⟩

/-- C20, amended: for every semantic version at most one of the five range
checks holds; for every version without pre-release part that is not below
2.1.0 exactly one holds; for a version with a pre-release part none holds. -/
theorem C20_ranges_disjoint_and_gap_free (v : Version) :
    (rangeChecks v).count true ≤ 1 ∧
    (v.pre = "" → v.atLeast (2, 1) = true → (rangeChecks v).count true = 1) ∧
    (v.pre ≠ "" → (rangeChecks v).count true = 0) := by
  by_cases hpre : v.pre = ""
  · have h21 := atLeast_minor_anti v 2 1 2 (by omega)
    have h32 := atLeast_minor_anti v 2 2 3 (by omega)
    have h43 := atLeast_minor_anti v 2 3 4 (by omega)
    have h64 := atLeast_minor_anti v 2 4 6 (by omega)
    rw [rangeChecks_of_release v hpre]
    revert h21 h32 h43 h64
    generalize v.atLeast (2, 1) = b1
    generalize v.atLeast (2, 2) = b2
    generalize v.atLeast (2, 3) = b3
    generalize v.atLeast (2, 4) = b4
    generalize v.atLeast (2, 6) = b6
    intro h21 h32 h43 h64
    cases b1 <;> cases b2 <;> cases b3 <;> cases b4 <;> cases b6 <;>
      simp_all
  · rw [rangeChecks_of_prerelease v hpre]
    simp [hpre]

/-- C20, witness: the release versions 2.1.0, 2.5.9 and 2.11.0 pass exactly one
check each: the first, the fourth and the fifth. -/
theorem C20_witness_release_versions :
    (rangeChecks ⟨2, 5, 9, "", "", "2.5.9"⟩).count true = 1 ∧
    rangeChecks ⟨2, 1, 0, "", "", "2.1.0"⟩ = [true, false, false, false, false] ∧
    rangeChecks ⟨2, 5, 9, "", "", "2.5.9"⟩ = [false, false, false, true, false] ∧
    rangeChecks ⟨2, 11, 0, "", "", "2.11"⟩ = [false, false, false, false, true] :=
  ⟨(C20_ranges_disjoint_and_gap_free ⟨2, 5, 9, "", "", "2.5.9"⟩).2.1 rfl (by decide),
   by decide, by decide, by decide⟩

/-! ## The ClusterRole generator and its unit test -/

theorem checkRanges_error {ρ : Type} (E : ClusterRoleEnv ρ) (n version : String) (v : Version)
    (e : GoError) (h : checkRanges E n version v = .error e) :
    e = versionNotSupported version := by
  unfold checkRanges at h
  split_ifs at h
  simp only [Except.error.injEq] at h
  exact h.symm

theorem generate_error {ρ : Type} (E : ClusterRoleEnv ρ) (n : String) (image : Option String)
    (e : GoError) (h : GenerateNewClusterRoleForControlPlane E n image = .error e) :
    e = ErrInvalidSemVer ∨ ∃ msg, e = .errorf msg := by
  unfold GenerateNewClusterRoleForControlPlane at h
  split at h
  · rename_i e1 h1
    simp only [Except.error.injEq] at h
    exact h ▸ NewVersion_error _ _ h1
  · exact Or.inr ⟨_, checkRanges_error E n _ _ e h⟩

theorem errorsIs_sentinel_of_generate {ρ : Type} (E : ClusterRoleEnv ρ) (n : String)
    (image : Option String) (e : GoError) (text : String)
    (h : GenerateNewClusterRoleForControlPlane E n image = .error e)
    (htext : text ≠ "Invalid Semantic Version") :
    errorsIs e (.sentinel text) = false := by
  rcases generate_error E n image e h with rfl | ⟨msg, rfl⟩
  · simp [errorsIs, ErrInvalidSemVer, Ne.symm htext]
  · simp [errorsIs]

/-- C21: the generator does not reject an image without tag: for every
environment the two images of the unit test resolve `versions.Latest` like the
same repository tagged with it; with 2.6.0 for `versions.Latest` the result is a
ClusterRole and no error; and no error the generator returns for them is a
sentinel other than the one of the semver library. -/
theorem C21_untagged_image_not_rejected :
    (∀ (E : ClusterRoleEnv TaggedRole) (n : String),
      GenerateNewClusterRoleForControlPlane E n (some "test/development")
        = GenerateNewClusterRoleForControlPlane E n
            (some ("test/development" ++ ":" ++ E.Latest)) ∧
      GenerateNewClusterRoleForControlPlane E n (some "kong/kubernetes-ingress-controller")
        = GenerateNewClusterRoleForControlPlane E n
            (some ("kong/kubernetes-ingress-controller" ++ ":" ++ E.Latest))) ∧
    GenerateNewClusterRoleForControlPlane (taggedEnv "2.6.0" "2.6.0")
        "test_development_untagged" (some "test/development")
      = .ok (TaggedRole.ge2_6 "test_development_untagged") ∧
    GenerateNewClusterRoleForControlPlane (taggedEnv "2.6.0" "2.6.0") "test_empty"
        (some "kong/kubernetes-ingress-controller")
      = .ok (TaggedRole.ge2_6 "test_empty") ∧
    (∀ (E : ClusterRoleEnv TaggedRole) (n text : String) (err : GoError),
      text ≠ "Invalid Semantic Version" →
      GenerateNewClusterRoleForControlPlane E n (some "test/development") = .error err →
      errorsIs err (.sentinel text) = false) := by
  refine ⟨?_, by rfl, by rfl, ?_⟩
  · intro E n
    constructor
    · apply generate_congr
      rw [imageVersion_untagged E _ (by decide) (by decide), imageVersion_explicit_latest]
    · apply generate_congr
      rw [imageVersion_untagged E _ (by decide) (by decide), imageVersion_explicit_latest]
  · intro E n text err htext h
    exact errorsIs_sentinel_of_generate E n _ err text h htext

/-- C22: for the image `kong/kubernetes-ingress-controller:1.0` of the unit test
the generator returns, in every environment, no ClusterRole and the error
"version 1.0 not supported". -/
theorem C22_old_version_is_an_error :
    (∀ (E : ClusterRoleEnv TaggedRole) (n : String),
      GenerateNewClusterRoleForControlPlane E n
          (some "kong/kubernetes-ingress-controller:1.0")
        = .error (.errorf "version 1.0 not supported")) ∧
    goResults (GenerateNewClusterRoleForControlPlane (taggedEnv "2.6.0" "2.6.0")
        "test_unsupported" (some "kong/kubernetes-ingress-controller:1.0"))
      = (none, some (.errorf "version 1.0 not supported")) := by
  refine ⟨?_, by rfl⟩
  intro E n
  have h := (imageVersion_tagged E "kong/kubernetes-ingress-controller" "1.0"
    (by decide) (by decide) (by decide))
  have himg : ("kong/kubernetes-ingress-controller" ++ ":" ++ "1.0" : String)
      = "kong/kubernetes-ingress-controller:1.0" := by decide
  rw [himg] at h
  unfold GenerateNewClusterRoleForControlPlane
  rw [h]
  rfl

theorem imageVersion_pointers {ρ : Type} (E : ClusterRoleEnv ρ) (image : Option String) :
    imageVersion E.pointers image = imageVersion E image := by
  cases image <;> rfl

theorem returns_pointers_eq_goResults {ρ : Type} (E : ClusterRoleEnv ρ)
    (controlplaneName : String) (image : Option String) :
    GenerateNewClusterRoleForControlPlaneReturns NewConstraint E.pointers controlplaneName image
      = goResults (GenerateNewClusterRoleForControlPlane E controlplaneName image) := by
  have c1 : NewConstraint ">=2.1,<2.2" = .ok constraint_ge2_1_lt2_2 := by rfl
  have c2 : NewConstraint ">=2.2,<2.3" = .ok constraint_ge2_2_lt2_3 := by rfl
  have c3 : NewConstraint ">=2.3,<2.4" = .ok constraint_ge2_3_lt2_4 := by rfl
  have c4 : NewConstraint ">=2.4,<2.6" = .ok constraint_ge2_4_lt2_6 := by rfl
  have c5 : NewConstraint ">=2.6" = .ok constraint_ge2_6 := by rfl
  unfold GenerateNewClusterRoleForControlPlaneReturns GenerateNewClusterRoleForControlPlane
  rw [imageVersion_pointers, c1, c2, c3, c4, c5]
  cases NewVersion (imageVersion E image) with
  | error err => rfl
  | ok v =>
      simp only [checkRanges, ClusterRoleEnv.pointers]
      cases constraint_ge2_1_lt2_2.Check v <;> cases constraint_ge2_2_lt2_3.Check v <;>
        cases constraint_ge2_3_lt2_4.Check v <;> cases constraint_ge2_4_lt2_6.Check v <;>
        cases constraint_ge2_6.Check v <;> rfl

/-- C26: whatever `semver.NewConstraint` returns at its five call sites, and with
generated functions that return a non-nil pointer, the generator returns, for
every name and every image (nil, empty or any string), either a non-nil
ClusterRole and a nil error, or a nil ClusterRole and a non-nil error: never
both and never neither. -/
theorem C26_exactly_one_result {ρ : Type}
    (newConstraint : String → Except GoError Constraints) (E : ClusterRoleEnv (Option ρ))
    (controlplaneName : String) (image : Option String)
    (hgen : E.returnsNonNil controlplaneName) :
    ((GenerateNewClusterRoleForControlPlaneReturns newConstraint E controlplaneName image).1
          ≠ none ∧
        (GenerateNewClusterRoleForControlPlaneReturns newConstraint E controlplaneName image).2
          = none) ∨
      ((GenerateNewClusterRoleForControlPlaneReturns newConstraint E controlplaneName image).1
          = none ∧
        (GenerateNewClusterRoleForControlPlaneReturns newConstraint E controlplaneName image).2
          ≠ none) := by
  obtain ⟨h1, h2, h3, h4, h5⟩ := hgen
  unfold GenerateNewClusterRoleForControlPlaneReturns
  repeat' split
  all_goals first
    | exact Or.inr ⟨rfl, Option.some_ne_none _⟩
    | exact Or.inl ⟨h1, rfl⟩
    | exact Or.inl ⟨h2, rfl⟩
    | exact Or.inl ⟨h3, rfl⟩
    | exact Or.inl ⟨h4, rfl⟩
    | exact Or.inl ⟨h5, rfl⟩

/-- C26, witness: a nil image, an empty image, a supported tag, an old tag and a
tag that is no version, with generated functions that return the address of a
ClusterRole. -/
theorem C26_witness_results :
    (taggedEnv "2.4.0" "2.6.0").pointers.returnsNonNil "cp" ∧
    GenerateNewClusterRoleForControlPlaneReturns NewConstraint
        (taggedEnv "2.4.0" "2.6.0").pointers "cp" none
      = (some (TaggedRole.ge2_4_lt2_6 "cp"), none) ∧
    GenerateNewClusterRoleForControlPlaneReturns NewConstraint
        (taggedEnv "2.4.0" "2.6.0").pointers "cp" (some "")
      = (some (TaggedRole.ge2_4_lt2_6 "cp"), none) ∧
    GenerateNewClusterRoleForControlPlaneReturns NewConstraint
        (taggedEnv "2.4.0" "2.6.0").pointers "cp"
        (some "kong/kubernetes-ingress-controller:2.2.1")
      = (some (TaggedRole.ge2_2_lt2_3 "cp"), none) ∧
    GenerateNewClusterRoleForControlPlaneReturns NewConstraint
        (taggedEnv "2.4.0" "2.6.0").pointers "cp"
        (some "kong/kubernetes-ingress-controller:1.0")
      = (none, some (.errorf "version 1.0 not supported")) ∧
    GenerateNewClusterRoleForControlPlaneReturns NewConstraint
        (taggedEnv "2.4.0" "2.6.0").pointers "cp" (some "test/development:main")
      = (none, some ErrInvalidSemVer) ∧
    (((GenerateNewClusterRoleForControlPlaneReturns NewConstraint
          (taggedEnv "2.4.0" "2.6.0").pointers "cp" none).1 ≠ none ∧
        (GenerateNewClusterRoleForControlPlaneReturns NewConstraint
          (taggedEnv "2.4.0" "2.6.0").pointers "cp" none).2 = none) ∨
      ((GenerateNewClusterRoleForControlPlaneReturns NewConstraint
          (taggedEnv "2.4.0" "2.6.0").pointers "cp" none).1 = none ∧
        (GenerateNewClusterRoleForControlPlaneReturns NewConstraint
          (taggedEnv "2.4.0" "2.6.0").pointers "cp" none).2 ≠ none)) :=
  ⟨⟨Option.some_ne_none _, Option.some_ne_none _, Option.some_ne_none _,
      Option.some_ne_none _, Option.some_ne_none _⟩,
   by rfl, by rfl, by rfl, by rfl, by rfl,
   C26_exactly_one_result NewConstraint (taggedEnv "2.4.0" "2.6.0").pointers "cp" none
     ⟨Option.some_ne_none _, Option.some_ne_none _, Option.some_ne_none _,
      Option.some_ne_none _, Option.some_ne_none _⟩⟩

/-- C27: for a nil image and for an empty image the generator resolves
`consts.DefaultControlPlaneTag`; when that constant is a tag (no colon, not
`latest`), the result is the result for an image `repo:` followed by it. -/
theorem C27_nil_or_empty_image_default_tag {ρ : Type} (E : ClusterRoleEnv ρ)
    (controlplaneName repo : String) (hrepo : ':' ∉ repo.data)
    (htag : ':' ∉ E.DefaultControlPlaneTag.data)
    (hlatest : E.DefaultControlPlaneTag ≠ "latest") :
    imageVersion E none = E.DefaultControlPlaneTag ∧
    imageVersion E (some "") = E.DefaultControlPlaneTag ∧
    GenerateNewClusterRoleForControlPlane E controlplaneName none
      = GenerateNewClusterRoleForControlPlane E controlplaneName
          (some (repo ++ ":" ++ E.DefaultControlPlaneTag)) ∧
    GenerateNewClusterRoleForControlPlane E controlplaneName (some "")
      = GenerateNewClusterRoleForControlPlane E controlplaneName
          (some (repo ++ ":" ++ E.DefaultControlPlaneTag)) := by
  have h1 : imageVersion E none = E.DefaultControlPlaneTag := rfl
  have h2 : imageVersion E (some "") = E.DefaultControlPlaneTag := by
    simp [imageVersion]
  have h3 := imageVersion_tagged E repo E.DefaultControlPlaneTag hrepo htag hlatest
  exact ⟨h1, h2, generate_congr E _ _ _ (h1.trans h3.symm),
    generate_congr E _ _ _ (h2.trans h3.symm)⟩

/-- C27, witness: with 2.4.0 for the default tag and 2.6.0 for `versions.Latest`,
a nil image gives the [2.4,2.6) set, as `kong/kubernetes-ingress-controller:2.4.0`
does, and not the set of `versions.Latest`. -/
theorem C27_witness_default_tag :
    GenerateNewClusterRoleForControlPlane (taggedEnv "2.4.0" "2.6.0") "cp" none
      = GenerateNewClusterRoleForControlPlane (taggedEnv "2.4.0" "2.6.0") "cp"
          (some ("kong/kubernetes-ingress-controller" ++ ":" ++ "2.4.0")) ∧
    GenerateNewClusterRoleForControlPlane (taggedEnv "2.4.0" "2.6.0") "cp" none
      = .ok (TaggedRole.ge2_4_lt2_6 "cp") :=
  ⟨(C27_nil_or_empty_image_default_tag (taggedEnv "2.4.0" "2.6.0") "cp"
      "kong/kubernetes-ingress-controller" (by decide) (by decide) (by decide)).2.2.1,
   by rfl⟩

/-! ## Resource requirements: drift and the nil pointer -/

/-- C25: the limits `ephemeral-storage: 1Gi` and `ephemeral-storage: 2Gi` compare
equal, and so do requests under two different resource names: the function
compares the numbers of entries and the `cpu` and `memory` entries only. -/
theorem C25_other_resources_not_compared :
    ResourceRequirementsEqual
      ⟨[("ephemeral-storage", ⟨1073741824, 0, "BinarySI"⟩)], [], []⟩
      (some ⟨[("ephemeral-storage", ⟨2147483648, 0, "BinarySI"⟩)], [], []⟩) = true ∧
    ResourceRequirementsEqual
      ⟨[], [("ephemeral-storage", ⟨1073741824, 0, "BinarySI"⟩)], []⟩
      (some ⟨[], [("hugepages-2Mi", ⟨4194304, 0, "BinarySI"⟩)], []⟩) = true := by
  constructor <;> decide

theorem length_eq_zero_and (a : ResourceRequirements) :
    (a.Claims.length = 0 ∧ a.Limits.length = 0 ∧ a.Requests.length = 0) ↔
      (a.Claims = [] ∧ a.Limits = [] ∧ a.Requests = []) := by
  simp [List.length_eq_zero]

/-- C28: `ResourceRequirementsEqual(a, nil)` is true exactly when `a` has no
claims, no limits and no requests, and it equals `ResourceRequirementsEqual(a, &e)`
for the empty value `e`. -/
theorem C28_nil_means_empty (a : ResourceRequirements) :
    (ResourceRequirementsEqual a none = true ↔
      a.Claims = [] ∧ a.Limits = [] ∧ a.Requests = []) ∧
    ResourceRequirementsEqual a none = ResourceRequirementsEqual a (some ⟨[], [], []⟩) := by
  constructor
  · rw [← length_eq_zero_and]
    simp [ResourceRequirementsEqual, and_assoc]
  · cases a with
    | mk limits requests claims =>
        cases limits with
        | cons l ls => cases claims <;> simp [ResourceRequirementsEqual]
        | nil =>
            cases requests with
            | cons q qs => cases claims <;> simp [ResourceRequirementsEqual]
            | nil =>
                cases claims with
                | cons c cs => simp [ResourceRequirementsEqual]
                | nil => decide

/-- C28, witness: the empty value and a value with one limit. -/
theorem C28_witness_nil :
    ResourceRequirementsEqual ⟨[], [], []⟩ none = true ∧
    ResourceRequirementsEqual ⟨[("cpu", ⟨1, 0, "DecimalSI"⟩)], [], []⟩ none = false ∧
    ResourceRequirementsEqual ⟨[("cpu", ⟨1, 0, "DecimalSI"⟩)], [], []⟩ none
      = ResourceRequirementsEqual ⟨[("cpu", ⟨1, 0, "DecimalSI"⟩)], [], []⟩
          (some ⟨[], [], []⟩) :=
  ⟨(C28_nil_means_empty ⟨[], [], []⟩).1.mpr ⟨rfl, rfl, rfl⟩, by decide,
   (C28_nil_means_empty ⟨[("cpu", ⟨1, 0, "DecimalSI"⟩)], [], []⟩).2⟩

/-! ## The GatewayConfiguration watch reads the class list and the name only -/

theorem anyClassOfController_iff (controllerName : String) (classes : List GatewayClass) :
    anyClassOfController controllerName classes = true ↔
      ∃ k ∈ classes, k.Spec.ControllerName = controllerName := by
  induction classes with
  | nil => simp [anyClassOfController]
  | cons k ks ih =>
      unfold anyClassOfController
      by_cases hk : k.Spec.ControllerName = controllerName
      · simp [hk]
      · simp [hk, ih]

/-- C29: when listing the GatewayClass objects succeeds,
`gatewayConfigurationMatchesController` returns true exactly when a listed class
has this controller's name as `spec.controllerName`, and any two argument
objects give the same result in the same store state. -/
theorem C29_decided_by_class_list (r : Reconciler) (obj obj2 : Object)
    (classes : List GatewayClass) (hlist : r.Client.ListGatewayClasses = .ok classes) :
    (gatewayConfigurationMatchesController r obj = true ↔
      ∃ k ∈ classes, k.Spec.ControllerName = r.ControllerName) ∧
    gatewayConfigurationMatchesController r obj
      = gatewayConfigurationMatchesController r obj2 := by
  refine ⟨?_, rfl⟩
  simp only [gatewayConfigurationMatchesController, hlist]
  exact anyClassOfController_iff _ _

/-- C29, witness: a store with one class of this controller answers true for a
GatewayConfiguration that no class references and for a Gateway alike. -/
theorem C29_witness_any_object :
    (gatewayConfigurationMatchesController
        (reconcilerWith (.ok [⟨"other", ⟨"example.com/other", none⟩⟩,
          ⟨"kong", ⟨"konghq.com/gateway-operator", none⟩⟩]) (.ok []) (fun _ => .ok ()))
        (.GatewayConfiguration ⟨"default", "unreferenced", ⟨none, none⟩⟩) = true ↔
      ∃ k ∈ [(⟨"other", ⟨"example.com/other", none⟩⟩ : GatewayClass),
          ⟨"kong", ⟨"konghq.com/gateway-operator", none⟩⟩],
        k.Spec.ControllerName = "konghq.com/gateway-operator") ∧
    gatewayConfigurationMatchesController
        (reconcilerWith (.ok [⟨"other", ⟨"example.com/other", none⟩⟩,
          ⟨"kong", ⟨"konghq.com/gateway-operator", none⟩⟩]) (.ok []) (fun _ => .ok ()))
        (.GatewayConfiguration ⟨"default", "unreferenced", ⟨none, none⟩⟩)
      = gatewayConfigurationMatchesController
        (reconcilerWith (.ok [⟨"other", ⟨"example.com/other", none⟩⟩,
          ⟨"kong", ⟨"konghq.com/gateway-operator", none⟩⟩]) (.ok []) (fun _ => .ok ()))
        (.Gateway ⟨"ns1", "a", ⟨"kong"⟩⟩) :=
  C29_decided_by_class_list _ _ _ _ rfl

theorem parametersRefMatches_of_name (group : String) (c1 c2 : GatewayConfiguration)
    (hname : c1.Name = c2.Name) (k : GatewayClass) :
    parametersRefMatches group c1 k = parametersRefMatches group c2 k := by
  unfold parametersRefMatches
  rw [hname]

theorem parametersRefMatches_withNamespace (group : String) (c : GatewayConfiguration)
    (ns : Option String) (k : GatewayClass) :
    parametersRefMatches group c (withParametersRefNamespace ns k)
      = parametersRefMatches group c k := by
  unfold parametersRefMatches withParametersRefNamespace
  cases k.Spec.ParametersRef <;> rfl

/-- C30: two GatewayConfigurations with the same name, whatever their namespaces
and other fields, get the same reconcile requests in every store state; and the
namespace of a class's parametersRef does not enter the result. -/
theorem C30_only_the_name_is_read (r : Reconciler) (c1 c2 : GatewayConfiguration)
    (hname : c1.Name = c2.Name) :
    listGatewaysForGatewayConfig r (.GatewayConfiguration c1)
      = listGatewaysForGatewayConfig r (.GatewayConfiguration c2) ∧
    ∀ (classes : List GatewayClass) (ns : Option String),
      listGatewaysForGatewayConfig
          (r.withClasses (classes.map (withParametersRefNamespace ns)))
          (.GatewayConfiguration c1)
        = listGatewaysForGatewayConfig (r.withClasses classes) (.GatewayConfiguration c1) := by
  constructor
  · unfold listGatewaysForGatewayConfig
    have hf : parametersRefMatches r.SchemeGroupVersionGroup c1
        = parametersRefMatches r.SchemeGroupVersionGroup c2 :=
      funext (parametersRefMatches_of_name _ c1 c2 hname)
    simp only [hf]
  · intro classes ns
    simp only [listGatewaysForGatewayConfig, Reconciler.withClasses, List.foldl_map,
      parametersRefMatches_withNamespace]
    rfl

/-- C30, witness: the configuration `cfg` in namespace `default` and the one in
namespace `other`, with a class whose parametersRef names the namespace `default`. -/
theorem C30_witness_two_namespaces :
    listGatewaysForGatewayConfig
      (reconcilerWith
        (.ok [⟨"kong", ⟨"konghq.com/gateway-operator",
          some ⟨"gateway-operator.konghq.com", "GatewayConfiguration", "cfg",
            some "default"⟩⟩⟩])
        (.ok [⟨"ns1", "a", ⟨"kong"⟩⟩]) (fun _ => .ok ()))
      (.GatewayConfiguration ⟨"default", "cfg", ⟨none, none⟩⟩)
    = listGatewaysForGatewayConfig
      (reconcilerWith
        (.ok [⟨"kong", ⟨"konghq.com/gateway-operator",
          some ⟨"gateway-operator.konghq.com", "GatewayConfiguration", "cfg",
            some "default"⟩⟩⟩])
        (.ok [⟨"ns1", "a", ⟨"kong"⟩⟩]) (fun _ => .ok ()))
      (.GatewayConfiguration ⟨"other", "cfg", ⟨some ⟨[("deployment.replicas", "2")]⟩, none⟩⟩) ∧
    listGatewaysForGatewayConfig
      (reconcilerWith
        (.ok [⟨"kong", ⟨"konghq.com/gateway-operator",
          some ⟨"gateway-operator.konghq.com", "GatewayConfiguration", "cfg",
            some "default"⟩⟩⟩])
        (.ok [⟨"ns1", "a", ⟨"kong"⟩⟩]) (fun _ => .ok ()))
      (.GatewayConfiguration ⟨"other", "cfg", ⟨some ⟨[("deployment.replicas", "2")]⟩, none⟩⟩)
    = [⟨⟨"ns1", "a"⟩⟩] :=
  ⟨(C30_only_the_name_is_read _ ⟨"default", "cfg", ⟨none, none⟩⟩
      ⟨"other", "cfg", ⟨some ⟨[("deployment.replicas", "2")]⟩, none⟩⟩ rfl).1,
   by decide⟩

/-! ## Promotion in the rollout engine of the specification -/

theorem le_sum_map_of_mem {α : Type} (f : α → Nat) (l : List α) (x : α) (hx : x ∈ l) :
    f x ≤ (l.map f).sum := by
  induction l with
  | nil => cases hx
  | cons a t ih =>
      rcases List.mem_cons.mp hx with rfl | h
      · simp
      · have := ih h
        simp only [List.map_cons, List.sum_cons]
        omega

theorem one_le_activeEndpoints (state : RolloutState) (deployments : List ChildDeployment)
    (services : List LiveService) (promote : Option String) (service : LiveService)
    (d : ChildDeployment) (hd : d ∈ deployments) (hname : d.Name = service.selects)
    (havailable : 1 ≤ d.availableReplicas) :
    1 ≤ activeEndpointsOf ⟨state, deployments, services, promote⟩ service := by
  unfold activeEndpointsOf
  have hmem : d ∈ deployments.filter (fun x => decide (x.Name = service.selects)) :=
    List.mem_filter.mpr ⟨hd, by simpa using hname⟩
  have := le_sum_map_of_mem (fun x : ChildDeployment => x.availableReplicas) _ d hmem
  simp only [] at this ⊢
  omega

theorem previewDeployment_spec (o : RolloutObject) (preview : ChildDeployment)
    (h : previewDeployment o = some preview) :
    preview ∈ o.deployments ∧ preview.generationState = .preview := by
  unfold previewDeployment at h
  exact ⟨List.mem_of_find?_eq_some h, by simpa using List.find?_some h⟩

theorem previewReady_available (o : RolloutObject) (preview : ChildDeployment)
    (h : previewDeployment o = some preview) (hready : previewReady o = true) :
    1 ≤ preview.availableReplicas := by
  unfold previewReady at hready
  rw [h] at hready
  simp only [Bool.and_eq_true, decide_eq_true_eq] at hready
  exact hready.1

theorem not_mem_formerLive (o : RolloutObject) (preview : ChildDeployment)
    (hname : ∀ d ∈ o.deployments, d.generationState = .live → d.Name ≠ preview.Name) :
    preview.Name ∉ (o.deployments.filter
      (fun d => decide (d.generationState = .live))).map (fun d => d.Name) := by
  intro hmem
  obtain ⟨d, hd, hdn⟩ := List.mem_map.mp hmem
  obtain ⟨hd1, hd2⟩ := List.mem_filter.mp hd
  exact hname d hd1 (by simpa using hd2) hdn

theorem promoteWhenReadyPass_eq (o : RolloutObject) (preview : ChildDeployment)
    (hstate : o.state = .AwaitingPromotion) (hpreview : previewDeployment o = some preview)
    (hready : previewReady o = true) (htrigger : o.promoteWhenReady = some "true") :
    promoteWhenReadyPass o =
      ⟨.Stable,
        (o.deployments.map
          (fun d => (⟨d.Name, .live, d.podTemplate, d.availableReplicas⟩ : ChildDeployment))).filter
          (fun d => decide (d.Name ∉ (o.deployments.filter
            (fun d => decide (d.generationState = .live))).map (fun d => d.Name))),
        o.liveServices.map (fun s => ⟨s.serviceType, preview.Name⟩), none⟩ := by
  unfold promoteWhenReadyPass
  rw [hstate, hpreview]
  simp only [htrigger, hready, and_self, if_true]
  rfl

theorem mem_promoted_deployments (o : RolloutObject) (preview : ChildDeployment)
    (hpreview : previewDeployment o = some preview)
    (hname : ∀ d ∈ o.deployments, d.generationState = .live → d.Name ≠ preview.Name) :
    (⟨preview.Name, .live, preview.podTemplate, preview.availableReplicas⟩ : ChildDeployment) ∈
      (o.deployments.map
        (fun d => (⟨d.Name, .live, d.podTemplate, d.availableReplicas⟩ : ChildDeployment))).filter
        (fun d => decide (d.Name ∉ (o.deployments.filter
          (fun d => decide (d.generationState = .live))).map (fun d => d.Name))) := by
  have hp := previewDeployment_spec o preview hpreview
  have hnf := not_mem_formerLive o preview hname
  exact List.mem_filter.mpr ⟨List.mem_map.mpr ⟨preview, hp.1, rfl⟩, by simpa using hnf⟩

theorem eq_of_mem_promoted_deployments (o : RolloutObject) (preview d : ChildDeployment)
    (honly : ∀ d ∈ o.deployments, d.generationState = .preview → d = preview)
    (hd : d ∈ (o.deployments.map
        (fun d => (⟨d.Name, .live, d.podTemplate, d.availableReplicas⟩ : ChildDeployment))).filter
        (fun d => decide (d.Name ∉ (o.deployments.filter
          (fun d => decide (d.generationState = .live))).map (fun d => d.Name)))) :
    d = ⟨preview.Name, .live, preview.podTemplate, preview.availableReplicas⟩ := by
  obtain ⟨hmap, hnot⟩ := List.mem_filter.mp hd
  obtain ⟨y, hy, rfl⟩ := List.mem_map.mp hmap
  simp only [decide_eq_true_eq] at hnot
  cases hstate : y.generationState with
  | preview => rw [honly y hy hstate]
  | live =>
      exact absurd (List.mem_map.mpr ⟨y, List.mem_filter.mpr ⟨hy, by simpa using hstate⟩, rfl⟩)
        hnot

/-- C24: in the rollout engine of the specification, for an object in
`AwaitingPromotion` whose preview generation is ready and whose promotion
annotation is "true", the pass of the engine reaches a state in which the live
Deployment is the former preview one with its pod template, every live Service
(the ingress one among them) has an active endpoint, as in every state after
step (1) of the promotion, the annotation is absent and the `RolledOut` reason
is not `AwaitingPromotion`. -/
theorem C24_promotion_reaches_new_live (o : RolloutObject) (preview : ChildDeployment)
    (hstate : o.state = .AwaitingPromotion) (hpreview : previewDeployment o = some preview)
    (hready : previewReady o = true) (htrigger : o.promoteWhenReady = some "true")
    (honly : ∀ d ∈ o.deployments, d.generationState = .preview → d = preview)
    (hname : ∀ d ∈ o.deployments, d.generationState = .live → d.Name ≠ preview.Name)
    (hingress : ∃ s ∈ o.liveServices, s.serviceType = .ingress) :
    (∃ d ∈ (promoteWhenReadyPass o).deployments, d.generationState = .live) ∧
    (∀ d ∈ (promoteWhenReadyPass o).deployments,
      d.generationState = .live ∧ d.Name = preview.Name ∧
        d.podTemplate = preview.podTemplate) ∧
    (∃ s ∈ (promoteWhenReadyPass o).liveServices, s.serviceType = .ingress) ∧
    (∀ s ∈ (promoteWhenReadyPass o).liveServices,
      1 ≤ activeEndpointsOf (promoteWhenReadyPass o) s) ∧
    (∀ st ∈ (promotionStates o preview).tail, ∀ s ∈ st.liveServices,
      1 ≤ activeEndpointsOf st s) ∧
    (promoteWhenReadyPass o).promoteWhenReady = none ∧
    rolledOutReason (promoteWhenReadyPass o) ≠ .AwaitingPromotion := by
  have hp := previewDeployment_spec o preview hpreview
  have hav := previewReady_available o preview hpreview hready
  have hnew := mem_promoted_deployments o preview hpreview hname
  rw [promoteWhenReadyPass_eq o preview hstate hpreview hready htrigger]
  refine ⟨⟨_, hnew, rfl⟩, ?_, ?_, ?_, ?_, rfl, by simp [rolledOutReason]⟩
  · intro d hd
    rw [eq_of_mem_promoted_deployments o preview d honly hd]
    exact ⟨rfl, rfl, rfl⟩
  · obtain ⟨s, hs, htype⟩ := hingress
    exact ⟨⟨s.serviceType, preview.Name⟩, List.mem_map.mpr ⟨s, hs, rfl⟩, htype⟩
  · intro s hs
    obtain ⟨s0, _, rfl⟩ := List.mem_map.mp hs
    exact one_le_activeEndpoints _ _ _ _ _ _ hnew rfl hav
  · intro st hst s hs
    simp only [promotionStates, reselectLiveServices, relabelPreviewAsLive, deleteFormerLive,
      clearPromotionAnnotation, List.tail_cons, List.mem_cons, List.mem_singleton,
      List.not_mem_nil, or_false] at hst
    rcases hst with rfl | rfl | rfl | rfl | rfl
    · obtain ⟨s0, _, rfl⟩ := List.mem_map.mp hs
      exact one_le_activeEndpoints _ _ _ _ _ _ hp.1 rfl hav
    · obtain ⟨s0, _, rfl⟩ := List.mem_map.mp hs
      exact one_le_activeEndpoints _ _ _ _ _
        ⟨preview.Name, .live, preview.podTemplate, preview.availableReplicas⟩
        (List.mem_map.mpr ⟨preview, hp.1, rfl⟩) rfl hav
    · obtain ⟨s0, _, rfl⟩ := List.mem_map.mp hs
      exact one_le_activeEndpoints _ _ _ _ _ _ hnew rfl hav
    · obtain ⟨s0, _, rfl⟩ := List.mem_map.mp hs
      exact one_le_activeEndpoints _ _ _ _ _ _ hnew rfl hav
    · obtain ⟨s0, _, rfl⟩ := List.mem_map.mp hs
      exact one_le_activeEndpoints _ _ _ _ _ _ hnew rfl hav

/-- C24, witness: the object in `AwaitingPromotion` with the annotation set. -/
theorem C24_witness_promotion :
    promoteWhenReadyPass awaitingObject
      = ⟨.Stable, [⟨"dp-preview", .live, "kong:3.1", 1⟩],
          [⟨.admin, "dp-preview"⟩, ⟨.ingress, "dp-preview"⟩], none⟩ ∧
    (∀ s ∈ (promoteWhenReadyPass awaitingObject).liveServices,
      1 ≤ activeEndpointsOf (promoteWhenReadyPass awaitingObject) s) :=
  ⟨by decide,
   (C24_promotion_reaches_new_live awaitingObject ⟨"dp-preview", .preview, "kong:3.1", 1⟩
      rfl (by decide) (by decide) rfl (by decide) (by decide) (by decide)).2.2.2.1⟩

end GatewayOperator
